import Mathlib

/-!
Shallow embedding of the underwriting guardrails and offer-generation engine
of the repository (`server/services/underwriting.py` and
`server/routes/offers.py`).  All Python floats are modelled as rationals
(`ℚ`), Python ints as `ℚ` where they flow into float arithmetic and as `ℤ`
where they stay integral.  A Python `dict` of metrics with possibly-missing
keys is modelled as a structure of `Option ℚ` fields, with `metrics.get(k, 0)`
becoming `Option.getD _ 0`.  Divisions whose denominator the Python code does
not guard are modelled by making the embedded function return `Option`
(`none` exactly when the Python code would raise `ZeroDivisionError`).
-/

/-- Underwriting decision outcomes (`UnderwritingDecision` in the source). -/
inductive UnderwritingDecision where
  | approved
  | declined
  | manual_review
  | conditional
deriving DecidableEq, Repr

/-- Severity levels for rule violations (`ViolationSeverity` in the source). -/
inductive ViolationSeverity where
  | info
  | warning
  | critical
deriving DecidableEq, Repr

/-- One violated underwriting rule (`RuleViolation` dataclass in the source). -/
structure RuleViolation where
  rule_id : String
  description : String
  severity : ViolationSeverity
  actual_value : ℚ
  threshold_value : ℚ
  field_name : String
deriving DecidableEq, Repr

/-- Result of underwriting analysis (`UnderwritingResult` dataclass). -/
structure UnderwritingResult where
  decision : UnderwritingDecision
  violations : List RuleViolation
  max_offer_amount : Option ℚ
  risk_score : ℚ
  reasons : List String
  ca_compliant : Bool
deriving DecidableEq, Repr

/-- Metrics input.  The Python source receives a `Dict` and reads exactly these
four keys with `metrics.get(key, 0)`; an absent key is a `none` field here. -/
structure Metrics where
  avg_monthly_revenue : Option ℚ
  avg_daily_balance_3m : Option ℚ
  total_nsf_3m : Option ℚ
  total_days_negative_3m : Option ℚ
deriving DecidableEq, Repr

-- California-specific lending compliance constants (`CAComplianceRules`).
namespace CAComplianceRules

def MAX_ANNUAL_FEE_RATE : ℚ := 0.36

def MIN_REVENUE_REQUIREMENT : ℚ := 50000

/-- `MAX_NSF_RATIO` in the source: max 5% NSF ratio for CA compliance. -/
def MAX_NSF_RATIO_CAP : ℚ := 0.05

def HIGH_RISK_NSF_THRESHOLD : ℚ := 8

end CAComplianceRules

/-- Static catalog entry: `{"threshold": ..., "severity": ...}`. -/
structure RuleDef where
  rule_id : String
  threshold : ℚ
  severity : ViolationSeverity
deriving DecidableEq, Repr

/-- The rule catalog built in `UnderwritingGuardrails.__init__` (the
`self.rules` dict), in its insertion order. -/
def rules : List RuleDef :=
  [ ⟨"min_monthly_revenue", 15000, ViolationSeverity.critical⟩,
    ⟨"min_annual_revenue", 180000, ViolationSeverity.critical⟩,
    ⟨"max_nsf_3m", 5, ViolationSeverity.critical⟩,
    ⟨"max_nsf_ratio", 0.03, ViolationSeverity.warning⟩,
    ⟨"min_avg_balance", 5000, ViolationSeverity.warning⟩,
    ⟨"balance_to_revenue_ratio", 0.05, ViolationSeverity.warning⟩,
    ⟨"max_negative_days_3m", 15, ViolationSeverity.critical⟩,
    ⟨"max_consecutive_negative_days", 7, ViolationSeverity.warning⟩,
    ⟨"ca_min_revenue", CAComplianceRules.MIN_REVENUE_REQUIREMENT, ViolationSeverity.critical⟩,
    ⟨"ca_max_nsf_ratio", CAComplianceRules.MAX_NSF_RATIO_CAP, ViolationSeverity.critical⟩,
    ⟨"max_daily_payment_ratio", 0.15, ViolationSeverity.warning⟩,
    ⟨"max_total_exposure", 2.0, ViolationSeverity.warning⟩ ]

/-- `self.rules[rid]["threshold"]` (the source only looks up keys present in
the dict, so the default branch is never hit on the source's access patterns). -/
def ruleThreshold (rid : String) : ℚ :=
  ((rules.find? (fun r => r.rule_id == rid)).map RuleDef.threshold).getD 0

/-- `self.rules[rid]["severity"]`. -/
def ruleSeverity (rid : String) : ViolationSeverity :=
  ((rules.find? (fun r => r.rule_id == rid)).map RuleDef.severity).getD ViolationSeverity.info

/-- `metrics.get("avg_monthly_revenue", 0)`. -/
def monthlyRevenue (m : Metrics) : ℚ := m.avg_monthly_revenue.getD 0

/-- `annual_revenue = monthly_revenue * 12`. -/
def annualRevenue (m : Metrics) : ℚ := monthlyRevenue m * 12

/-- `metrics.get("avg_daily_balance_3m", 0)`. -/
def dailyBalance (m : Metrics) : ℚ := m.avg_daily_balance_3m.getD 0

/-- `metrics.get("total_nsf_3m", 0)`. -/
def nsfCount (m : Metrics) : ℚ := m.total_nsf_3m.getD 0

/-- `metrics.get("total_days_negative_3m", 0)`. -/
def negativeDays (m : Metrics) : ℚ := m.total_days_negative_3m.getD 0

/-- `nsf_ratio = nsf_count / 90 if nsf_count > 0 else 0`. -/
def nsfRatio (m : Metrics) : ℚ := if nsfCount m > 0 then nsfCount m / 90 else 0

/-- `balance_to_revenue_ratio = daily_balance / monthly_revenue if monthly_revenue > 0 else 0`. -/
def balanceToRevenueRatio (m : Metrics) : ℚ :=
  if monthlyRevenue m > 0 then dailyBalance m / monthlyRevenue m else 0

/-- The `RuleViolation` literal appended by the `min_monthly_revenue` block. -/
def minMonthlyRevenueViolation (actual : ℚ) : RuleViolation :=
  { rule_id := "min_monthly_revenue",
    description := "Monthly revenue below minimum threshold",
    severity := ruleSeverity "min_monthly_revenue",
    actual_value := actual,
    threshold_value := ruleThreshold "min_monthly_revenue",
    field_name := "avg_monthly_revenue" }

/-- The `RuleViolation` literal appended by the `min_annual_revenue` block. -/
def minAnnualRevenueViolation (actual : ℚ) : RuleViolation :=
  { rule_id := "min_annual_revenue",
    description := "Annual revenue below minimum threshold",
    severity := ruleSeverity "min_annual_revenue",
    actual_value := actual,
    threshold_value := ruleThreshold "min_annual_revenue",
    field_name := "annual_revenue" }

/-- The `RuleViolation` literal appended by the `max_nsf_3m` block. -/
def maxNsf3mViolation (actual : ℚ) : RuleViolation :=
  { rule_id := "max_nsf_3m",
    description := "NSF count exceeds maximum threshold",
    severity := ruleSeverity "max_nsf_3m",
    actual_value := actual,
    threshold_value := ruleThreshold "max_nsf_3m",
    field_name := "total_nsf_3m" }

/-- The `RuleViolation` literal appended by the `max_nsf_ratio` block. -/
def maxNsfRatioViolation (actual : ℚ) : RuleViolation :=
  { rule_id := "max_nsf_ratio",
    description := "NSF ratio too high",
    severity := ruleSeverity "max_nsf_ratio",
    actual_value := actual,
    threshold_value := ruleThreshold "max_nsf_ratio",
    field_name := "nsf_ratio" }

/-- The `RuleViolation` literal appended by the `min_avg_balance` block. -/
def minAvgBalanceViolation (actual : ℚ) : RuleViolation :=
  { rule_id := "min_avg_balance",
    description := "Average daily balance too low",
    severity := ruleSeverity "min_avg_balance",
    actual_value := actual,
    threshold_value := ruleThreshold "min_avg_balance",
    field_name := "avg_daily_balance_3m" }

/-- The `RuleViolation` literal appended by the `balance_to_revenue_ratio` block. -/
def balanceToRevenueRatioViolation (actual : ℚ) : RuleViolation :=
  { rule_id := "balance_to_revenue_ratio",
    description := "Balance to revenue ratio too low",
    severity := ruleSeverity "balance_to_revenue_ratio",
    actual_value := actual,
    threshold_value := ruleThreshold "balance_to_revenue_ratio",
    field_name := "balance_to_revenue_ratio" }

/-- The `RuleViolation` literal appended by the `max_negative_days_3m` block. -/
def maxNegativeDaysViolation (actual : ℚ) : RuleViolation :=
  { rule_id := "max_negative_days_3m",
    description := "Too many negative balance days",
    severity := ruleSeverity "max_negative_days_3m",
    actual_value := actual,
    threshold_value := ruleThreshold "max_negative_days_3m",
    field_name := "total_days_negative_3m" }

/-- The `RuleViolation` literal appended by the CA minimum-revenue check
(severity and threshold written literally in the source, not read from the
catalog). -/
def caMinRevenueViolation (actual : ℚ) : RuleViolation :=
  { rule_id := "ca_min_revenue",
    description := "Does not meet CA minimum revenue requirement",
    severity := ViolationSeverity.critical,
    actual_value := actual,
    threshold_value := CAComplianceRules.MIN_REVENUE_REQUIREMENT,
    field_name := "annual_revenue" }

/-- The `RuleViolation` literal appended by the CA NSF-ratio check. -/
def caMaxNsfRatioViolation (actual : ℚ) : RuleViolation :=
  { rule_id := "ca_max_nsf_ratio",
    description := "NSF ratio exceeds CA compliance limit",
    severity := ViolationSeverity.critical,
    actual_value := actual,
    threshold_value := CAComplianceRules.MAX_NSF_RATIO_CAP,
    field_name := "nsf_ratio" }

/-- The `min_monthly_revenue` check block of `evaluate_metrics`: the appended
violations and the risk-score increment it contributes (`risk_score += 0.3`). -/
def checkMinMonthlyRevenue (monthly_revenue : ℚ) : List RuleViolation × ℚ :=
  if monthly_revenue < ruleThreshold "min_monthly_revenue" then
    ([minMonthlyRevenueViolation monthly_revenue], 0.3)
  else ([], 0)

/-- The `min_annual_revenue` check block: it appends a violation but the
source adds no risk-score increment in this block. -/
def checkMinAnnualRevenue (annual_revenue : ℚ) : List RuleViolation × ℚ :=
  if annual_revenue < ruleThreshold "min_annual_revenue" then
    ([minAnnualRevenueViolation annual_revenue], 0)
  else ([], 0)

/-- The `max_nsf_3m` check block (`risk_score += 0.25`). -/
def checkMaxNsf3m (nsf_count : ℚ) : List RuleViolation × ℚ :=
  if nsf_count > ruleThreshold "max_nsf_3m" then
    ([maxNsf3mViolation nsf_count], 0.25)
  else ([], 0)

/-- The `max_nsf_ratio` check block (`risk_score += 0.15`). -/
def checkMaxNsfRatio (nsf_ratio : ℚ) : List RuleViolation × ℚ :=
  if nsf_ratio > ruleThreshold "max_nsf_ratio" then
    ([maxNsfRatioViolation nsf_ratio], 0.15)
  else ([], 0)

/-- The `min_avg_balance` check block (`risk_score += 0.2`). -/
def checkMinAvgBalance (daily_balance : ℚ) : List RuleViolation × ℚ :=
  if daily_balance < ruleThreshold "min_avg_balance" then
    ([minAvgBalanceViolation daily_balance], 0.2)
  else ([], 0)

/-- The `balance_to_revenue_ratio` check block (`risk_score += 0.15`). -/
def checkBalanceToRevenueRatio (ratio : ℚ) : List RuleViolation × ℚ :=
  if ratio < ruleThreshold "balance_to_revenue_ratio" then
    ([balanceToRevenueRatioViolation ratio], 0.15)
  else ([], 0)

/-- The `max_negative_days_3m` check block (`risk_score += 0.3`). -/
def checkMaxNegativeDays (negative_days : ℚ) : List RuleViolation × ℚ :=
  if negative_days > ruleThreshold "max_negative_days_3m" then
    ([maxNegativeDaysViolation negative_days], 0.3)
  else ([], 0)

/-- The two CA-specific compliance checks inside the `state == "CA"` block:
appended violations and the resulting `ca_compliant` flag. -/
def caOverlay (annual_revenue nsf_ratio : ℚ) : List RuleViolation × Bool :=
  let c₁ : List RuleViolation × Bool :=
    if annual_revenue < CAComplianceRules.MIN_REVENUE_REQUIREMENT then
      ([caMinRevenueViolation annual_revenue], false)
    else ([], true)
  let c₂ : List RuleViolation × Bool :=
    if nsf_ratio > CAComplianceRules.MAX_NSF_RATIO_CAP then
      ([caMaxNsfRatioViolation nsf_ratio], false)
    else ([], true)
  (c₁.1 ++ c₂.1, c₁.2 && c₂.2)

/-- The reason string appended by the CA high-risk NSF classification. -/
def highRiskReason : String := "High NSF count triggers CA high-risk classification"

/-- The `nsf_count >= HIGH_RISK_NSF_THRESHOLD` block inside the `state == "CA"`
branch: the appended reason and its risk-score increment (`risk_score += 0.2`). -/
def caHighRisk (nsf_count : ℚ) : List String × ℚ :=
  if nsf_count ≥ CAComplianceRules.HIGH_RISK_NSF_THRESHOLD then
    ([highRiskReason], 0.2)
  else ([], 0)

/-- Accumulation phase of `evaluate_metrics`: the violations, the (unclamped)
risk score, the reasons accumulated before decision resolution, and the
`ca_compliant` flag.  The rule blocks run in the source's fixed block order;
each block contributes its appended violations and its risk-score increment,
so the concatenation and the sum below equal the source's sequential
`violations.append` / `risk_score +=` accumulation. -/
def evalCore (m : Metrics) (state : String) :
    List RuleViolation × ℚ × List String × Bool :=
  let c₁ := checkMinMonthlyRevenue (monthlyRevenue m)
  let c₂ := checkMinAnnualRevenue (annualRevenue m)
  let c₃ := checkMaxNsf3m (nsfCount m)
  let c₄ := checkMaxNsfRatio (nsfRatio m)
  let c₅ := checkMinAvgBalance (dailyBalance m)
  let c₆ := checkBalanceToRevenueRatio (balanceToRevenueRatio m)
  let c₇ := checkMaxNegativeDays (negativeDays m)
  let ca := if state = "CA" then caOverlay (annualRevenue m) (nsfRatio m) else ([], true)
  let hr := if state = "CA" then caHighRisk (nsfCount m) else ([], 0)
  (c₁.1 ++ c₂.1 ++ c₃.1 ++ c₄.1 ++ c₅.1 ++ c₆.1 ++ c₇.1 ++ ca.1,
   0.3 + c₁.2 + c₂.2 + c₃.2 + c₄.2 + c₅.2 + c₆.2 + c₇.2 + hr.2,
   hr.1, ca.2)

/-- `[v for v in violations if v.severity == ViolationSeverity.CRITICAL]`. -/
def criticalViolations (vs : List RuleViolation) : List RuleViolation :=
  vs.filter (fun v => v.severity == ViolationSeverity.critical)

/-- `[v for v in violations if v.severity == ViolationSeverity.WARNING]`. -/
def warningViolations (vs : List RuleViolation) : List RuleViolation :=
  vs.filter (fun v => v.severity == ViolationSeverity.warning)

/-- Python truthiness of the `critical_violations` list. -/
def hasCritical (vs : List RuleViolation) : Bool :=
  !(criticalViolations vs).isEmpty

/-- `len(warning_violations)`. -/
def warningCount (vs : List RuleViolation) : ℕ :=
  (warningViolations vs).length

/-- `UnderwritingGuardrails.evaluate_metrics`: accumulation, then the
decision-resolution cascade, then the final `risk_score = min(risk_score, 1.0)`
clamp (the source clamps after resolving the decision). -/
def evaluate_metrics (m : Metrics) (state : String) : UnderwritingResult :=
  let core := evalCore m state
  let violations := core.1
  let risk_score := core.2.1
  let reasons := core.2.2.1
  let ca_compliant := core.2.2.2
  let monthly_revenue := monthlyRevenue m
  if hasCritical violations = true ∨ ca_compliant = false then
    { decision := UnderwritingDecision.declined,
      violations := violations,
      max_offer_amount := none,
      risk_score := min risk_score 1,
      reasons := reasons ++ ["Critical underwriting violations or compliance issues"],
      ca_compliant := ca_compliant }
  else if 3 ≤ warningCount violations ∨ risk_score > 0.8 then
    { decision := UnderwritingDecision.manual_review,
      violations := violations,
      max_offer_amount := some (monthly_revenue * 0.5),
      risk_score := min risk_score 1,
      reasons := reasons ++ ["Multiple warnings or high risk score requires manual review"],
      ca_compliant := ca_compliant }
  else if risk_score > 0.6 then
    { decision := UnderwritingDecision.conditional,
      violations := violations,
      max_offer_amount := some (monthly_revenue * 0.8),
      risk_score := min risk_score 1,
      reasons := reasons ++ ["Moderate risk - conditional approval with limits"],
      ca_compliant := ca_compliant }
  else
    { decision := UnderwritingDecision.approved,
      violations := violations,
      max_offer_amount := some (monthly_revenue * 1.2),
      risk_score := min risk_score 1,
      reasons := reasons ++ ["Meets all underwriting requirements"],
      ca_compliant := ca_compliant }

/-! ### Catalog lookup values -/

@[simp] lemma thr_min_monthly : ruleThreshold "min_monthly_revenue" = 15000 := by
  simp [ruleThreshold, rules]

@[simp] lemma thr_min_annual : ruleThreshold "min_annual_revenue" = 180000 := by
  simp [ruleThreshold, rules]

@[simp] lemma thr_max_nsf : ruleThreshold "max_nsf_3m" = 5 := by
  simp [ruleThreshold, rules]

@[simp] lemma thr_max_nsf_ratio : ruleThreshold "max_nsf_ratio" = 0.03 := by
  simp [ruleThreshold, rules]

@[simp] lemma thr_min_avg_balance : ruleThreshold "min_avg_balance" = 5000 := by
  simp [ruleThreshold, rules]

@[simp] lemma thr_btr : ruleThreshold "balance_to_revenue_ratio" = 0.05 := by
  simp [ruleThreshold, rules]

@[simp] lemma thr_max_negative_days : ruleThreshold "max_negative_days_3m" = 15 := by
  simp [ruleThreshold, rules]

@[simp] lemma thr_max_daily_payment : ruleThreshold "max_daily_payment_ratio" = 0.15 := by
  simp [ruleThreshold, rules]

@[simp] lemma thr_max_total_exposure : ruleThreshold "max_total_exposure" = 2 := by
  simp [ruleThreshold, rules]
  norm_num

@[simp] lemma sev_min_monthly :
    ruleSeverity "min_monthly_revenue" = ViolationSeverity.critical := by
  simp [ruleSeverity, rules]

@[simp] lemma sev_min_annual :
    ruleSeverity "min_annual_revenue" = ViolationSeverity.critical := by
  simp [ruleSeverity, rules]

@[simp] lemma sev_max_nsf : ruleSeverity "max_nsf_3m" = ViolationSeverity.critical := by
  simp [ruleSeverity, rules]

@[simp] lemma sev_max_nsf_ratio : ruleSeverity "max_nsf_ratio" = ViolationSeverity.warning := by
  simp [ruleSeverity, rules]

@[simp] lemma sev_min_avg_balance :
    ruleSeverity "min_avg_balance" = ViolationSeverity.warning := by
  simp [ruleSeverity, rules]

@[simp] lemma sev_btr :
    ruleSeverity "balance_to_revenue_ratio" = ViolationSeverity.warning := by
  simp [ruleSeverity, rules]

@[simp] lemma sev_max_negative_days :
    ruleSeverity "max_negative_days_3m" = ViolationSeverity.critical := by
  simp [ruleSeverity, rules]

/-! ### Check-block characterizations -/

lemma checkMinMonthlyRevenue_fst (x : ℚ) :
    (checkMinMonthlyRevenue x).1 =
      if x < 15000 then [minMonthlyRevenueViolation x] else [] := by
  unfold checkMinMonthlyRevenue
  rw [thr_min_monthly]
  split <;> rfl

lemma checkMinMonthlyRevenue_snd (x : ℚ) :
    (checkMinMonthlyRevenue x).2 = if x < 15000 then (0.3 : ℚ) else 0 := by
  unfold checkMinMonthlyRevenue
  rw [thr_min_monthly]
  split <;> rfl

lemma checkMinAnnualRevenue_fst (x : ℚ) :
    (checkMinAnnualRevenue x).1 =
      if x < 180000 then [minAnnualRevenueViolation x] else [] := by
  unfold checkMinAnnualRevenue
  rw [thr_min_annual]
  split <;> rfl

lemma checkMinAnnualRevenue_snd (x : ℚ) : (checkMinAnnualRevenue x).2 = 0 := by
  unfold checkMinAnnualRevenue
  split <;> rfl

lemma checkMaxNsf3m_fst (x : ℚ) :
    (checkMaxNsf3m x).1 = if x > 5 then [maxNsf3mViolation x] else [] := by
  unfold checkMaxNsf3m
  rw [thr_max_nsf]
  split <;> rfl

lemma checkMaxNsf3m_snd (x : ℚ) :
    (checkMaxNsf3m x).2 = if x > 5 then (0.25 : ℚ) else 0 := by
  unfold checkMaxNsf3m
  rw [thr_max_nsf]
  split <;> rfl

lemma checkMaxNsfRatio_fst (x : ℚ) :
    (checkMaxNsfRatio x).1 = if x > 0.03 then [maxNsfRatioViolation x] else [] := by
  unfold checkMaxNsfRatio
  rw [thr_max_nsf_ratio]
  split <;> rfl

lemma checkMaxNsfRatio_snd (x : ℚ) :
    (checkMaxNsfRatio x).2 = if x > 0.03 then (0.15 : ℚ) else 0 := by
  unfold checkMaxNsfRatio
  rw [thr_max_nsf_ratio]
  split <;> rfl

lemma checkMinAvgBalance_fst (x : ℚ) :
    (checkMinAvgBalance x).1 = if x < 5000 then [minAvgBalanceViolation x] else [] := by
  unfold checkMinAvgBalance
  rw [thr_min_avg_balance]
  split <;> rfl

lemma checkMinAvgBalance_snd (x : ℚ) :
    (checkMinAvgBalance x).2 = if x < 5000 then (0.2 : ℚ) else 0 := by
  unfold checkMinAvgBalance
  rw [thr_min_avg_balance]
  split <;> rfl

lemma checkBalanceToRevenueRatio_fst (x : ℚ) :
    (checkBalanceToRevenueRatio x).1 =
      if x < 0.05 then [balanceToRevenueRatioViolation x] else [] := by
  unfold checkBalanceToRevenueRatio
  rw [thr_btr]
  split <;> rfl

lemma checkBalanceToRevenueRatio_snd (x : ℚ) :
    (checkBalanceToRevenueRatio x).2 = if x < 0.05 then (0.15 : ℚ) else 0 := by
  unfold checkBalanceToRevenueRatio
  rw [thr_btr]
  split <;> rfl

lemma checkMaxNegativeDays_fst (x : ℚ) :
    (checkMaxNegativeDays x).1 = if x > 15 then [maxNegativeDaysViolation x] else [] := by
  unfold checkMaxNegativeDays
  rw [thr_max_negative_days]
  split <;> rfl

lemma checkMaxNegativeDays_snd (x : ℚ) :
    (checkMaxNegativeDays x).2 = if x > 15 then (0.3 : ℚ) else 0 := by
  unfold checkMaxNegativeDays
  rw [thr_max_negative_days]
  split <;> rfl

lemma caOverlay_fst (a r : ℚ) :
    (caOverlay a r).1 =
      (if a < 50000 then [caMinRevenueViolation a] else []) ++
        (if r > 0.05 then [caMaxNsfRatioViolation r] else []) := by
  simp only [caOverlay, CAComplianceRules.MIN_REVENUE_REQUIREMENT,
    CAComplianceRules.MAX_NSF_RATIO_CAP]
  split_ifs <;> rfl

lemma caOverlay_snd (a r : ℚ) :
    (caOverlay a r).2 = (!decide (a < 50000) && !decide (r > 0.05)) := by
  simp only [caOverlay, CAComplianceRules.MIN_REVENUE_REQUIREMENT,
    CAComplianceRules.MAX_NSF_RATIO_CAP]
  split_ifs <;> simp_all

lemma caHighRisk_fst (x : ℚ) :
    (caHighRisk x).1 = if x ≥ 8 then [highRiskReason] else [] := by
  simp only [caHighRisk, CAComplianceRules.HIGH_RISK_NSF_THRESHOLD]
  split <;> rfl

lemma caHighRisk_snd (x : ℚ) :
    (caHighRisk x).2 = if x ≥ 8 then (0.2 : ℚ) else 0 := by
  simp only [caHighRisk, CAComplianceRules.HIGH_RISK_NSF_THRESHOLD]
  split <;> rfl

/-! ### `evalCore` decomposition -/

lemma evalCore_violations (m : Metrics) (s : String) :
    (evalCore m s).1 =
      (if monthlyRevenue m < 15000 then [minMonthlyRevenueViolation (monthlyRevenue m)] else []) ++
      (if annualRevenue m < 180000 then [minAnnualRevenueViolation (annualRevenue m)] else []) ++
      (if nsfCount m > 5 then [maxNsf3mViolation (nsfCount m)] else []) ++
      (if nsfRatio m > 0.03 then [maxNsfRatioViolation (nsfRatio m)] else []) ++
      (if dailyBalance m < 5000 then [minAvgBalanceViolation (dailyBalance m)] else []) ++
      (if balanceToRevenueRatio m < 0.05 then
        [balanceToRevenueRatioViolation (balanceToRevenueRatio m)] else []) ++
      (if negativeDays m > 15 then [maxNegativeDaysViolation (negativeDays m)] else []) ++
      (if s = "CA" then
        (if annualRevenue m < 50000 then [caMinRevenueViolation (annualRevenue m)] else []) ++
          (if nsfRatio m > 0.05 then [caMaxNsfRatioViolation (nsfRatio m)] else [])
       else []) := by
  by_cases hs : s = "CA" <;>
    simp only [evalCore, hs, if_true, if_false, checkMinMonthlyRevenue_fst,
      checkMinAnnualRevenue_fst, checkMaxNsf3m_fst, checkMaxNsfRatio_fst,
      checkMinAvgBalance_fst, checkBalanceToRevenueRatio_fst, checkMaxNegativeDays_fst,
      caOverlay_fst]

lemma evalCore_risk (m : Metrics) (s : String) :
    (evalCore m s).2.1 =
      0.3 + (if monthlyRevenue m < 15000 then (0.3 : ℚ) else 0) +
        (if nsfCount m > 5 then (0.25 : ℚ) else 0) +
        (if nsfRatio m > 0.03 then (0.15 : ℚ) else 0) +
        (if dailyBalance m < 5000 then (0.2 : ℚ) else 0) +
        (if balanceToRevenueRatio m < 0.05 then (0.15 : ℚ) else 0) +
        (if negativeDays m > 15 then (0.3 : ℚ) else 0) +
        (if s = "CA" ∧ nsfCount m ≥ 8 then (0.2 : ℚ) else 0) := by
  by_cases hs : s = "CA"
  · simp only [evalCore, hs, eq_self_iff_true, if_true, checkMinMonthlyRevenue_snd,
      checkMinAnnualRevenue_snd, checkMaxNsf3m_snd, checkMaxNsfRatio_snd,
      checkMinAvgBalance_snd, checkBalanceToRevenueRatio_snd, checkMaxNegativeDays_snd,
      caHighRisk_snd, true_and, ge_iff_le]
    ring
  · simp only [evalCore, hs, if_false, checkMinMonthlyRevenue_snd,
      checkMinAnnualRevenue_snd, checkMaxNsf3m_snd, checkMaxNsfRatio_snd,
      checkMinAvgBalance_snd, checkBalanceToRevenueRatio_snd, checkMaxNegativeDays_snd,
      false_and]
    ring

lemma evalCore_reasons (m : Metrics) (s : String) :
    (evalCore m s).2.2.1 =
      if s = "CA" ∧ nsfCount m ≥ 8 then [highRiskReason] else [] := by
  by_cases hs : s = "CA" <;>
    simp [evalCore, hs, caHighRisk_fst]

lemma evalCore_ca (m : Metrics) (s : String) :
    (evalCore m s).2.2.2 =
      if s = "CA" then (!decide (annualRevenue m < 50000) && !decide (nsfRatio m > 0.05))
      else true := by
  by_cases hs : s = "CA" <;>
    simp [evalCore, hs, caOverlay_snd]

/-! ### `evaluate_metrics` projections and decision cascade -/

lemma evaluate_violations (m : Metrics) (s : String) :
    (evaluate_metrics m s).violations = (evalCore m s).1 := by
  simp only [evaluate_metrics]
  split_ifs <;> rfl

lemma evaluate_risk (m : Metrics) (s : String) :
    (evaluate_metrics m s).risk_score = min (evalCore m s).2.1 1 := by
  simp only [evaluate_metrics]
  split_ifs <;> rfl

lemma evaluate_ca (m : Metrics) (s : String) :
    (evaluate_metrics m s).ca_compliant = (evalCore m s).2.2.2 := by
  simp only [evaluate_metrics]
  split_ifs <;> rfl

lemma evaluate_reasons_init (m : Metrics) (s : String) :
    ((evalCore m s).2.2.1 : List String) <+: (evaluate_metrics m s).reasons := by
  simp only [evaluate_metrics]
  split_ifs <;> simp

/-- Decision-resolution cascade of the source (first match wins), abstracted
over the three branch conditions. -/
def decide3 (d₁ d₂ d₃ : Bool) : UnderwritingDecision :=
  if d₁ then UnderwritingDecision.declined
  else if d₂ then UnderwritingDecision.manual_review
  else if d₃ then UnderwritingDecision.conditional
  else UnderwritingDecision.approved

/-- Strictness rank: `APPROVED < CONDITIONAL < MANUAL_REVIEW < DECLINED`. -/
def decisionRank : UnderwritingDecision → ℕ
  | UnderwritingDecision.approved => 0
  | UnderwritingDecision.conditional => 1
  | UnderwritingDecision.manual_review => 2
  | UnderwritingDecision.declined => 3

lemma evaluate_decision (m : Metrics) (s : String) :
    (evaluate_metrics m s).decision =
      decide3 (decide (hasCritical (evalCore m s).1 = true ∨ (evalCore m s).2.2.2 = false))
        (decide (3 ≤ warningCount (evalCore m s).1 ∨ (evalCore m s).2.1 > 0.8))
        (decide ((evalCore m s).2.1 > 0.6)) := by
  simp only [evaluate_metrics, decide3, decide_eq_true_eq]
  split_ifs <;> rfl

lemma evaluate_max_offer (m : Metrics) (s : String) :
    (evaluate_metrics m s).max_offer_amount =
      if hasCritical (evalCore m s).1 = true ∨ (evalCore m s).2.2.2 = false then none
      else if 3 ≤ warningCount (evalCore m s).1 ∨ (evalCore m s).2.1 > 0.8 then
        some (monthlyRevenue m * 0.5)
      else if (evalCore m s).2.1 > 0.6 then some (monthlyRevenue m * 0.8)
      else some (monthlyRevenue m * 1.2) := by
  simp only [evaluate_metrics]
  split_ifs <;> rfl

lemma decide3_rank_mono : ∀ a₁ a₂ a₃ b₁ b₂ b₃ : Bool,
    (a₁ = true → b₁ = true) → (a₂ = true → b₂ = true) → (a₃ = true → b₃ = true) →
    decisionRank (decide3 a₁ a₂ a₃) ≤ decisionRank (decide3 b₁ b₂ b₃) := by
  decide

/-! ### Computing `hasCritical` and `warningCount` -/

lemma hasCritical_eq_any (vs : List RuleViolation) :
    hasCritical vs = vs.any (fun v => v.severity == ViolationSeverity.critical) := by
  induction vs with
  | nil => rfl
  | cons v t ih =>
      simp [hasCritical, criticalViolations, List.filter_cons, List.any_cons] at ih ⊢
      by_cases h : v.severity = ViolationSeverity.critical <;> simp [h, ih]

lemma warningCount_eq_countP (vs : List RuleViolation) :
    warningCount vs = vs.countP (fun v => v.severity == ViolationSeverity.warning) := by
  simp [warningCount, warningViolations, List.countP_eq_length_filter]

lemma any_ite_singleton (c : Prop) [Decidable c] (v : RuleViolation)
    (p : RuleViolation → Bool) :
    (if c then [v] else []).any p = (decide c && p v) := by
  split <;> simp_all

lemma countP_ite_singleton (c : Prop) [Decidable c] (v : RuleViolation)
    (p : RuleViolation → Bool) :
    (if c then [v] else []).countP p = if c ∧ p v = true then 1 else 0 := by
  by_cases hc : c
  · by_cases hp : p v = true <;> simp [hc, hp, List.countP_cons]
  · simp [hc]

@[simp] lemma beq_warning_critical :
    (ViolationSeverity.warning == ViolationSeverity.critical) = false := rfl

@[simp] lemma beq_critical_warning :
    (ViolationSeverity.critical == ViolationSeverity.warning) = false := rfl

@[simp] lemma beq_critical_critical :
    (ViolationSeverity.critical == ViolationSeverity.critical) = true := rfl

@[simp] lemma beq_warning_warning :
    (ViolationSeverity.warning == ViolationSeverity.warning) = true := rfl

@[simp] lemma sev_of_minMonthlyRevenueViolation (a : ℚ) :
    (minMonthlyRevenueViolation a).severity = ViolationSeverity.critical := by
  simp [minMonthlyRevenueViolation]

@[simp] lemma sev_of_minAnnualRevenueViolation (a : ℚ) :
    (minAnnualRevenueViolation a).severity = ViolationSeverity.critical := by
  simp [minAnnualRevenueViolation]

@[simp] lemma sev_of_maxNsf3mViolation (a : ℚ) :
    (maxNsf3mViolation a).severity = ViolationSeverity.critical := by
  simp [maxNsf3mViolation]

@[simp] lemma sev_of_maxNsfRatioViolation (a : ℚ) :
    (maxNsfRatioViolation a).severity = ViolationSeverity.warning := by
  simp [maxNsfRatioViolation]

@[simp] lemma sev_of_minAvgBalanceViolation (a : ℚ) :
    (minAvgBalanceViolation a).severity = ViolationSeverity.warning := by
  simp [minAvgBalanceViolation]

@[simp] lemma sev_of_balanceToRevenueRatioViolation (a : ℚ) :
    (balanceToRevenueRatioViolation a).severity = ViolationSeverity.warning := by
  simp [balanceToRevenueRatioViolation]

@[simp] lemma sev_of_maxNegativeDaysViolation (a : ℚ) :
    (maxNegativeDaysViolation a).severity = ViolationSeverity.critical := by
  simp [maxNegativeDaysViolation]

@[simp] lemma sev_of_caMinRevenueViolation (a : ℚ) :
    (caMinRevenueViolation a).severity = ViolationSeverity.critical := by
  simp [caMinRevenueViolation]

@[simp] lemma sev_of_caMaxNsfRatioViolation (a : ℚ) :
    (caMaxNsfRatioViolation a).severity = ViolationSeverity.critical := by
  simp [caMaxNsfRatioViolation]

lemma hasCritical_evalCore (m : Metrics) (s : String) :
    hasCritical (evalCore m s).1 =
      (decide (monthlyRevenue m < 15000) || decide (annualRevenue m < 180000) ||
        decide (nsfCount m > 5) || decide (negativeDays m > 15) ||
        (decide (s = "CA") &&
          (decide (annualRevenue m < 50000) || decide (nsfRatio m > 0.05)))) := by
  rw [hasCritical_eq_any, evalCore_violations]
  by_cases hs : s = "CA" <;>
    simp [hs, List.any_append, any_ite_singleton, Bool.or_assoc, Bool.or_comm,
      Bool.or_left_comm]

lemma warningCount_evalCore (m : Metrics) (s : String) :
    warningCount (evalCore m s).1 =
      (if nsfRatio m > 0.03 then 1 else 0) + (if dailyBalance m < 5000 then 1 else 0) +
        (if balanceToRevenueRatio m < 0.05 then 1 else 0) := by
  rw [warningCount_eq_countP, evalCore_violations]
  by_cases hs : s = "CA" <;>
    simp [hs, List.countP_append, countP_ite_singleton] <;>
    ring

/-! ### Risk-score bounds -/

lemma ite_zero_nonneg {c : Prop} [Decidable c] {a : ℚ} (h : 0 ≤ a) :
    (0 : ℚ) ≤ if c then a else 0 := by
  split
  · exact h
  · exact le_refl 0

lemma evalCore_risk_ge (m : Metrics) (s : String) : (0.3 : ℚ) ≤ (evalCore m s).2.1 := by
  rw [evalCore_risk]
  have h₁ : (0:ℚ) ≤ if monthlyRevenue m < 15000 then (0.3:ℚ) else 0 :=
    ite_zero_nonneg (by norm_num)
  have h₂ : (0:ℚ) ≤ if nsfCount m > 5 then (0.25:ℚ) else 0 := ite_zero_nonneg (by norm_num)
  have h₃ : (0:ℚ) ≤ if nsfRatio m > 0.03 then (0.15:ℚ) else 0 := ite_zero_nonneg (by norm_num)
  have h₄ : (0:ℚ) ≤ if dailyBalance m < 5000 then (0.2:ℚ) else 0 :=
    ite_zero_nonneg (by norm_num)
  have h₅ : (0:ℚ) ≤ if balanceToRevenueRatio m < 0.05 then (0.15:ℚ) else 0 :=
    ite_zero_nonneg (by norm_num)
  have h₆ : (0:ℚ) ≤ if negativeDays m > 15 then (0.3:ℚ) else 0 := ite_zero_nonneg (by norm_num)
  have h₇ : (0:ℚ) ≤ if s = "CA" ∧ nsfCount m ≥ 8 then (0.2:ℚ) else 0 :=
    ite_zero_nonneg (by norm_num)
  linarith

lemma evaluate_risk_nonneg (m : Metrics) (s : String) :
    0 ≤ (evaluate_metrics m s).risk_score := by
  rw [evaluate_risk]
  have := evalCore_risk_ge m s
  have h1 : (0:ℚ) ≤ 1 := by norm_num
  exact le_min (by linarith) h1

lemma evaluate_risk_le_one (m : Metrics) (s : String) :
    (evaluate_metrics m s).risk_score ≤ 1 := by
  rw [evaluate_risk]
  exact min_le_right _ _

lemma min_one_gt_iff {r c : ℚ} (h : c < 1) : min r 1 > c ↔ r > c := by
  rw [gt_iff_lt, lt_min_iff]
  simp [h]

lemma ite_zero_mono {c d : Prop} [Decidable c] [Decidable d] {a : ℚ}
    (h : c → d) (ha : 0 ≤ a) :
    (if c then a else 0) ≤ (if d then a else 0) := by
  by_cases hc : c
  · rw [if_pos hc, if_pos (h hc)]
  · rw [if_neg hc]
    exact ite_zero_nonneg ha

/-! ### Term validator (`validate_deal_terms`) -/

/-- Issue messages appended by `validate_deal_terms`, modelled structurally:
each constructor stands for one of the three formatted strings and carries the
numeric values the source interpolates into the message. -/
inductive DealIssue where
  | payment_ratio_exceeds (payment_ratio limit : ℚ)
  | exposure_exceeds (exposure_ratio limit : ℚ)
  | ca_apr_exceeds (approx_apr : ℚ)
deriving DecidableEq, Repr

/-- `UnderwritingGuardrails.validate_deal_terms`.  The source divides
`total_payback / term_days` (and later `((fee_rate - 1) * 365) / term_days`)
without guarding `term_days`; with `term_days == 0` Python raises
`ZeroDivisionError`, modelled as `none`.  The other two divisions are guarded
exactly as in the source. -/
def validate_deal_terms (deal_amount fee_rate : ℚ) (term_days : ℤ)
    (monthly_revenue : ℚ) (state : String) : Option (Bool × List DealIssue) :=
  if term_days = 0 then none
  else
    let total_payback := deal_amount * fee_rate
    let daily_payment := total_payback / (term_days : ℚ)
    let daily_revenue := monthly_revenue / 30
    let payment_ratio := if daily_revenue > 0 then daily_payment / daily_revenue else 0
    let i₁ : List DealIssue :=
      if payment_ratio > ruleThreshold "max_daily_payment_ratio" then
        [DealIssue.payment_ratio_exceeds payment_ratio (ruleThreshold "max_daily_payment_ratio")]
      else []
    let exposure_ratio := if monthly_revenue > 0 then deal_amount / monthly_revenue else 0
    let i₂ : List DealIssue :=
      if exposure_ratio > ruleThreshold "max_total_exposure" then
        [DealIssue.exposure_exceeds exposure_ratio (ruleThreshold "max_total_exposure")]
      else []
    let approx_apr := ((fee_rate - 1) * 365) / (term_days : ℚ)
    let i₃ : List DealIssue :=
      if state = "CA" ∧ approx_apr > CAComplianceRules.MAX_ANNUAL_FEE_RATE then
        [DealIssue.ca_apr_exceeds approx_apr]
      else []
    let issues := i₁ ++ i₂ ++ i₃
    some (issues.isEmpty, issues)

lemma validate_deal_terms_isSome (deal_amount fee_rate : ℚ) (term_days : ℤ)
    (monthly_revenue : ℚ) (state : String) (h : term_days ≠ 0) :
    (validate_deal_terms deal_amount fee_rate term_days monthly_revenue state).isSome = true := by
  simp only [validate_deal_terms, if_neg h, Option.isSome_some]

/-! ### Offer tier generation (`routes/offers.py::generate_offers`) -/

/-- One pricing tier (an entry of the route's tier dicts). -/
structure OfferTier where
  factor : ℚ
  fee : ℚ
  term_days : ℤ
  buy_rate : Option ℚ
deriving DecidableEq, Repr

/-- The route's `default_tiers` table. -/
def default_tiers : List OfferTier :=
  [ ⟨0.8, 1.15, 90, some 1.12⟩,
    ⟨1.0, 1.20, 120, some 1.16⟩,
    ⟨1.2, 1.25, 150, some 1.20⟩ ]

/-- Python `int(...)` on a float value: truncation toward zero. -/
def truncQ (q : ℚ) : ℤ := if 0 ≤ q then ⌊q⌋ else ⌈q⌉

/-- One generated offer.  The computational fields of the offer dict the route
builds; the random `id` (a fresh UUID), the display-rounded `risk_score` and
the formatted `rationale` string are response metadata and are not modelled. -/
structure GeneratedOffer where
  tier : ℕ
  amount : ℤ
  factor : ℚ
  fee : ℚ
  payback_amount : ℤ
  term_days : ℤ
  buy_rate : Option ℚ
  expected_margin : Option ℤ
  daily_payment : ℤ
  terms_compliant : Bool
  compliance_issues : List DealIssue
deriving DecidableEq, Repr

/-- `base_amount = revenue * tier["factor"]` followed by
`if underwriting_result.max_offer_amount: base_amount = min(base_amount, ...)`.
Python truthiness: `None` and `0.0` skip the clamp. -/
def clampedBase (uw : UnderwritingResult) (revenue : ℚ) (tier : OfferTier) : ℚ :=
  match uw.max_offer_amount with
  | some mo => if mo ≠ 0 then min (revenue * tier.factor) mo else revenue * tier.factor
  | none => revenue * tier.factor

/-- `adjusted_amount = base_amount * (1 - underwriting_risk * 0.3)`. -/
def riskAdjusted (uw : UnderwritingResult) (revenue : ℚ) (tier : OfferTier) : ℚ :=
  clampedBase uw revenue tier * (1 - uw.risk_score * 0.3)

/-- `offer_amount = math.floor(adjusted_amount / 100) * 100`. -/
def offerAmount (uw : UnderwritingResult) (revenue : ℚ) (tier : OfferTier) : ℤ :=
  ⌊riskAdjusted uw revenue tier / 100⌋ * 100

/-- Construction of one offer dict inside the tier loop (index `i` is the
`enumerate` index).  `none` when `tier.term_days = 0`, in which case the
source's `validate_deal_terms` call raises. -/
def buildOffer (i : ℕ) (tier : OfferTier) (revenue : ℚ) (uw : UnderwritingResult) :
    Option GeneratedOffer :=
  let offer_amount := offerAmount uw revenue tier
  let payback_amount := (offer_amount : ℚ) * tier.fee
  let expected_margin : Option ℚ :=
    match tier.buy_rate with
    | some br => if br ≠ 0 then some ((tier.fee - br) * (offer_amount : ℚ)) else none
    | none => none
  match validate_deal_terms (offer_amount : ℚ) tier.fee tier.term_days revenue "CA" with
  | none => none
  | some (terms_valid, term_issues) =>
      some { tier := i + 1,
             amount := offer_amount,
             factor := tier.factor,
             fee := tier.fee,
             payback_amount := truncQ payback_amount,
             term_days := tier.term_days,
             buy_rate := tier.buy_rate,
             expected_margin :=
               match expected_margin with
               | some em => if em ≠ 0 then some (truncQ em) else none
               | none => none,
             daily_payment := truncQ (payback_amount / (tier.term_days : ℚ)),
             terms_compliant := terms_valid,
             compliance_issues := term_issues }

/-- The `for i, tier in enumerate(tiers[:3])` loop: builds offers in tier
order; aborts (Python exception propagates) if any single build raises. -/
def buildOffers (revenue : ℚ) (uw : UnderwritingResult) :
    ℕ → List OfferTier → Option (List GeneratedOffer)
  | _, [] => some []
  | i, t :: rest =>
      match buildOffer i t revenue uw, buildOffers revenue uw (i + 1) rest with
      | some o, some os => some (o :: os)
      | _, _ => none

/-- The pure computation of the `generate_offers` route (the `offers` list of
the response).  Modelled aspects, in the route's order: the underwriting
evaluation with jurisdiction `"CA"`; the early returns with an empty offer
list for `DECLINED` and `MANUAL_REVIEW`; the `revenue <= 0` error return; the
override-tiers-or-default selection and the `tiers[:3]` cap; the per-tier
offer construction.  Persistence, idempotency caching, event logging and the
route's locally computed (and unused) simplified risk score are external
plumbing and are not modelled. -/
def generate_offers (m : Metrics) (overrideTiers : List OfferTier) :
    Except String (List GeneratedOffer) :=
  let uw := evaluate_metrics m "CA"
  if uw.decision = UnderwritingDecision.declined then Except.ok []
  else if uw.decision = UnderwritingDecision.manual_review then Except.ok []
  else
    let revenue := monthlyRevenue m
    if revenue ≤ 0 then Except.error "Revenue data required for offer generation"
    else
      let tiers := if overrideTiers.isEmpty then default_tiers else overrideTiers
      match buildOffers revenue uw 0 (tiers.take 3) with
      | some offers => Except.ok offers
      | none => Except.error "ZeroDivisionError"

/-! ### Offer-generation lemmas -/

lemma offerAmount_mod (uw : UnderwritingResult) (revenue : ℚ) (tier : OfferTier) :
    offerAmount uw revenue tier % 100 = 0 := by
  unfold offerAmount
  exact Int.mul_emod_left _ _

lemma offerAmount_le (uw : UnderwritingResult) (revenue : ℚ) (tier : OfferTier) :
    ((offerAmount uw revenue tier : ℤ) : ℚ) ≤ riskAdjusted uw revenue tier := by
  have h : ((⌊riskAdjusted uw revenue tier / 100⌋ : ℤ) : ℚ) ≤
      riskAdjusted uw revenue tier / 100 := Int.floor_le _
  unfold offerAmount
  push_cast
  linarith

lemma buildOffer_some_amount {i : ℕ} {tier : OfferTier} {revenue : ℚ}
    {uw : UnderwritingResult} {o : GeneratedOffer}
    (h : buildOffer i tier revenue uw = some o) :
    o.amount = offerAmount uw revenue tier := by
  simp only [buildOffer] at h
  cases hv : validate_deal_terms ((offerAmount uw revenue tier : ℤ) : ℚ) tier.fee
      tier.term_days revenue "CA" with
  | none =>
      rw [hv] at h
      simp at h
  | some p =>
      obtain ⟨valid, issues⟩ := p
      rw [hv] at h
      simp only [Option.some.injEq] at h
      rw [← h]

lemma buildOffers_mem {revenue : ℚ} {uw : UnderwritingResult} :
    ∀ (ts : List OfferTier) (i : ℕ) (os : List GeneratedOffer),
      buildOffers revenue uw i ts = some os →
      ∀ o ∈ os, ∃ t ∈ ts, ∃ j, buildOffer j t revenue uw = some o := by
  intro ts
  induction ts with
  | nil =>
      intro i os h o ho
      simp only [buildOffers, Option.some.injEq] at h
      subst h
      simp at ho
  | cons t rest ih =>
      intro i os h o ho
      simp only [buildOffers] at h
      cases hb : buildOffer i t revenue uw with
      | none =>
          rw [hb] at h
          simp at h
      | some o₁ =>
          cases hr : buildOffers revenue uw (i + 1) rest with
          | none =>
              rw [hb, hr] at h
              simp at h
          | some os₁ =>
              rw [hb, hr] at h
              simp only [Option.some.injEq] at h
              subst h
              rcases List.mem_cons.1 ho with rfl | hmem
              · exact ⟨t, List.mem_cons_self _ _, i, hb⟩
              · obtain ⟨t', ht', j, hj⟩ := ih (i + 1) os₁ hr o hmem
                exact ⟨t', List.mem_cons_of_mem _ ht', j, hj⟩

lemma generate_offers_ok_inv {m : Metrics} {tiers : List OfferTier}
    {os : List GeneratedOffer} (h : generate_offers m tiers = Except.ok os) :
    os = [] ∨
      ((evaluate_metrics m "CA").decision ≠ UnderwritingDecision.declined ∧
        (evaluate_metrics m "CA").decision ≠ UnderwritingDecision.manual_review ∧
        0 < monthlyRevenue m ∧
        buildOffers (monthlyRevenue m) (evaluate_metrics m "CA") 0
          ((if tiers.isEmpty then default_tiers else tiers).take 3) = some os) := by
  simp only [generate_offers] at h
  by_cases h₁ : (evaluate_metrics m "CA").decision = UnderwritingDecision.declined
  · rw [if_pos h₁] at h
    left
    simpa using h.symm
  · rw [if_neg h₁] at h
    by_cases h₂ : (evaluate_metrics m "CA").decision = UnderwritingDecision.manual_review
    · rw [if_pos h₂] at h
      left
      simpa using h.symm
    · rw [if_neg h₂] at h
      by_cases h₃ : monthlyRevenue m ≤ 0
      · rw [if_pos h₃] at h
        cases h
      · rw [if_neg h₃] at h
        cases hbo : buildOffers (monthlyRevenue m) (evaluate_metrics m "CA") 0
            ((if tiers.isEmpty then default_tiers else tiers).take 3) with
        | none =>
            rw [hbo] at h
            cases h
        | some os₁ =>
            rw [hbo] at h
            simp only [Except.ok.injEq] at h
            subst h
            right
            exact ⟨h₁, h₂, lt_of_not_le h₃, rfl⟩

lemma evaluate_max_offer_pos {m : Metrics} {s : String} (hrev : 0 < monthlyRevenue m)
    {mo : ℚ} (hmo : (evaluate_metrics m s).max_offer_amount = some mo) : 0 < mo := by
  rw [evaluate_max_offer] at hmo
  split_ifs at hmo
  · injection hmo with h
    subst h
    exact mul_pos hrev (by norm_num)
  · injection hmo with h
    subst h
    exact mul_pos hrev (by norm_num)
  · injection hmo with h
    subst h
    exact mul_pos hrev (by norm_num)

lemma riskAdjusted_le (uw : UnderwritingResult) (revenue : ℚ) (tier : OfferTier)
    {mo : ℚ} (hmo : uw.max_offer_amount = some mo) (hpos : 0 < mo)
    (h0 : 0 ≤ uw.risk_score) (h1 : uw.risk_score ≤ 1) :
    riskAdjusted uw revenue tier ≤ mo := by
  unfold riskAdjusted
  simp only [clampedBase, hmo]
  rw [if_pos (ne_of_gt hpos)]
  set b := min (revenue * tier.factor) mo with hb
  have hbm : b ≤ mo := min_le_right _ _
  have hμ1 : 1 - uw.risk_score * 0.3 ≤ 1 := by nlinarith
  have hμ0 : 0 < 1 - uw.risk_score * 0.3 := by nlinarith
  by_cases hbn : 0 ≤ b
  · nlinarith
  · push_neg at hbn
    nlinarith

/-! ### Monotonicity infrastructure -/

lemma nsfRatio_mono {m m' : Metrics} (h : nsfCount m ≤ nsfCount m') :
    nsfRatio m ≤ nsfRatio m' := by
  unfold nsfRatio
  split_ifs with h1 h2 h2
  · rw [div_le_div_iff_of_pos_right (by norm_num : (0:ℚ) < 90)]
    exact h
  · linarith
  · exact le_of_lt (div_pos h2 (by norm_num))
  · exact le_refl 0

lemma btr_mono_balance {m m' : Metrics} (hmr : monthlyRevenue m' = monthlyRevenue m)
    (hdb : dailyBalance m' ≤ dailyBalance m) :
    balanceToRevenueRatio m' ≤ balanceToRevenueRatio m := by
  unfold balanceToRevenueRatio
  rw [hmr]
  split_ifs with h1
  · rw [div_le_div_iff_of_pos_right h1]
    exact hdb
  · exact le_refl 0

lemma ite_one_mono {c d : Prop} [Decidable c] [Decidable d] (h : c → d) :
    (if c then (1:ℕ) else 0) ≤ (if d then 1 else 0) := by
  by_cases hc : c
  · rw [if_pos hc, if_pos (h hc)]
  · rw [if_neg hc]
    split <;> omega

lemma evalCore_risk_mono {m m' : Metrics} (s : String)
    (hmr : monthlyRevenue m' = monthlyRevenue m)
    (hnsf : nsfCount m ≤ nsfCount m')
    (hnd : negativeDays m ≤ negativeDays m')
    (hdb : dailyBalance m' ≤ dailyBalance m)
    (hbtr : balanceToRevenueRatio m' ≤ balanceToRevenueRatio m) :
    (evalCore m s).2.1 ≤ (evalCore m' s).2.1 := by
  have har : annualRevenue m' = annualRevenue m := by
    unfold annualRevenue
    rw [hmr]
  have hratio := nsfRatio_mono hnsf
  rw [evalCore_risk, evalCore_risk, hmr]
  have t₂ : (if nsfCount m > 5 then (0.25:ℚ) else 0) ≤
      (if nsfCount m' > 5 then (0.25:ℚ) else 0) :=
    ite_zero_mono (fun hh => lt_of_lt_of_le hh hnsf) (by norm_num)
  have t₃ : (if nsfRatio m > 0.03 then (0.15:ℚ) else 0) ≤
      (if nsfRatio m' > 0.03 then (0.15:ℚ) else 0) :=
    ite_zero_mono (fun hh => lt_of_lt_of_le hh hratio) (by norm_num)
  have t₄ : (if dailyBalance m < 5000 then (0.2:ℚ) else 0) ≤
      (if dailyBalance m' < 5000 then (0.2:ℚ) else 0) :=
    ite_zero_mono (fun hh => lt_of_le_of_lt hdb hh) (by norm_num)
  have t₅ : (if balanceToRevenueRatio m < 0.05 then (0.15:ℚ) else 0) ≤
      (if balanceToRevenueRatio m' < 0.05 then (0.15:ℚ) else 0) :=
    ite_zero_mono (fun hh => lt_of_le_of_lt hbtr hh) (by norm_num)
  have t₆ : (if negativeDays m > 15 then (0.3:ℚ) else 0) ≤
      (if negativeDays m' > 15 then (0.3:ℚ) else 0) :=
    ite_zero_mono (fun hh => lt_of_lt_of_le hh hnd) (by norm_num)
  have t₇ : (if s = "CA" ∧ nsfCount m ≥ 8 then (0.2:ℚ) else 0) ≤
      (if s = "CA" ∧ nsfCount m' ≥ 8 then (0.2:ℚ) else 0) :=
    ite_zero_mono (fun hh => ⟨hh.1, le_trans hh.2 hnsf⟩) (by norm_num)
  linarith

lemma hasCritical_mono {m m' : Metrics} (s : String)
    (hmr : monthlyRevenue m' = monthlyRevenue m)
    (hnsf : nsfCount m ≤ nsfCount m')
    (hnd : negativeDays m ≤ negativeDays m') :
    hasCritical (evalCore m s).1 = true → hasCritical (evalCore m' s).1 = true := by
  have har : annualRevenue m' = annualRevenue m := by
    unfold annualRevenue
    rw [hmr]
  have hratio := nsfRatio_mono hnsf
  rw [hasCritical_evalCore, hasCritical_evalCore, hmr, har]
  simp only [Bool.or_eq_true, Bool.and_eq_true, decide_eq_true_eq]
  rintro ((((h1 | h2) | h3) | h4) | ⟨hca, h5 | h6⟩)
  · exact Or.inl (Or.inl (Or.inl (Or.inl h1)))
  · exact Or.inl (Or.inl (Or.inl (Or.inr h2)))
  · exact Or.inl (Or.inl (Or.inr (lt_of_lt_of_le h3 hnsf)))
  · exact Or.inl (Or.inr (lt_of_lt_of_le h4 hnd))
  · exact Or.inr ⟨hca, Or.inl h5⟩
  · exact Or.inr ⟨hca, Or.inr (lt_of_lt_of_le h6 hratio)⟩

lemma ca_false_mono {m m' : Metrics} (s : String)
    (hmr : monthlyRevenue m' = monthlyRevenue m)
    (hnsf : nsfCount m ≤ nsfCount m') :
    (evalCore m s).2.2.2 = false → (evalCore m' s).2.2.2 = false := by
  have har : annualRevenue m' = annualRevenue m := by
    unfold annualRevenue
    rw [hmr]
  have hratio := nsfRatio_mono hnsf
  rw [evalCore_ca, evalCore_ca, har]
  by_cases hs : s = "CA"
  · simp only [hs, if_true, Bool.and_eq_false_iff, Bool.not_eq_false', decide_eq_true_eq]
    rintro (h1 | h2)
    · exact Or.inl h1
    · exact Or.inr (lt_of_lt_of_le h2 hratio)
  · simp [hs]

lemma warningCount_mono {m m' : Metrics} (s : String)
    (hnsf : nsfCount m ≤ nsfCount m')
    (hdb : dailyBalance m' ≤ dailyBalance m)
    (hbtr : balanceToRevenueRatio m' ≤ balanceToRevenueRatio m) :
    warningCount (evalCore m s).1 ≤ warningCount (evalCore m' s).1 := by
  have hratio := nsfRatio_mono hnsf
  rw [warningCount_evalCore, warningCount_evalCore]
  have t₁ := ite_one_mono (fun hh => lt_of_lt_of_le hh hratio :
    nsfRatio m > 0.03 → nsfRatio m' > 0.03)
  have t₂ := ite_one_mono (fun hh => lt_of_le_of_lt hdb hh :
    dailyBalance m < 5000 → dailyBalance m' < 5000)
  have t₃ := ite_one_mono (fun hh => lt_of_le_of_lt hbtr hh :
    balanceToRevenueRatio m < 0.05 → balanceToRevenueRatio m' < 0.05)
  simp only [gt_iff_lt] at t₁ t₂ t₃ ⊢
  omega

lemma evaluate_mono {m m' : Metrics} (s : String)
    (hmr : monthlyRevenue m' = monthlyRevenue m)
    (hnsf : nsfCount m ≤ nsfCount m')
    (hnd : negativeDays m ≤ negativeDays m')
    (hdb : dailyBalance m' ≤ dailyBalance m)
    (hbtr : balanceToRevenueRatio m' ≤ balanceToRevenueRatio m) :
    decisionRank ((evaluate_metrics m s).decision) ≤
        decisionRank ((evaluate_metrics m' s).decision) ∧
      (evaluate_metrics m s).risk_score ≤ (evaluate_metrics m' s).risk_score := by
  have hrisk := evalCore_risk_mono s hmr hnsf hnd hdb hbtr
  constructor
  · rw [evaluate_decision, evaluate_decision]
    apply decide3_rank_mono
    · simp only [decide_eq_true_eq]
      rintro (hc | hca)
      · exact Or.inl (hasCritical_mono s hmr hnsf hnd hc)
      · exact Or.inr (ca_false_mono s hmr hnsf hca)
    · simp only [decide_eq_true_eq]
      rintro (hw | hr)
      · exact Or.inl (le_trans hw (warningCount_mono s hnsf hdb hbtr))
      · exact Or.inr (lt_of_lt_of_le hr hrisk)
    · simp only [decide_eq_true_eq]
      intro hr
      exact lt_of_lt_of_le hr hrisk
  · rw [evaluate_risk, evaluate_risk]
    exact min_le_min hrisk (le_refl 1)

/-! ### Claim theorems -/

/-- C1: for every metrics input and jurisdiction, `evaluate_metrics` resolves
the decision and `max_offer_amount` by the priority cascade, first match
winning: a CRITICAL violation or `ca_compliant = false` gives DECLINED with a
null amount; else at least 3 WARNING violations or risk score above 0.8 gives
MANUAL_REVIEW with amount `avg_monthly_revenue * 0.5`; else risk score above
0.6 gives CONDITIONAL with `avg_monthly_revenue * 0.8`; else APPROVED with
`avg_monthly_revenue * 1.2`.  Consequently the decision is DECLINED iff
`max_offer_amount` is null. -/
theorem C1_decision_resolution (m : Metrics) (s : String) :
    ((evaluate_metrics m s).decision =
      if hasCritical (evaluate_metrics m s).violations = true ∨
          (evaluate_metrics m s).ca_compliant = false then UnderwritingDecision.declined
      else if 3 ≤ warningCount (evaluate_metrics m s).violations ∨
          (evaluate_metrics m s).risk_score > 0.8 then UnderwritingDecision.manual_review
      else if (evaluate_metrics m s).risk_score > 0.6 then UnderwritingDecision.conditional
      else UnderwritingDecision.approved) ∧
    ((evaluate_metrics m s).max_offer_amount =
      if hasCritical (evaluate_metrics m s).violations = true ∨
          (evaluate_metrics m s).ca_compliant = false then none
      else if 3 ≤ warningCount (evaluate_metrics m s).violations ∨
          (evaluate_metrics m s).risk_score > 0.8 then some (monthlyRevenue m * 0.5)
      else if (evaluate_metrics m s).risk_score > 0.6 then some (monthlyRevenue m * 0.8)
      else some (monthlyRevenue m * 1.2)) ∧
    ((evaluate_metrics m s).decision = UnderwritingDecision.declined ↔
      (evaluate_metrics m s).max_offer_amount = none) := by
  rw [evaluate_decision, evaluate_max_offer, evaluate_violations, evaluate_ca, evaluate_risk]
  simp only [min_one_gt_iff (show (0.8:ℚ) < 1 by norm_num),
    min_one_gt_iff (show (0.6:ℚ) < 1 by norm_num)]
  by_cases h₁ : hasCritical (evalCore m s).1 = true ∨ (evalCore m s).2.2.2 = false
  · simp [decide3, h₁]
  · by_cases h₂ : 3 ≤ warningCount (evalCore m s).1 ∨ (evalCore m s).2.1 > 0.8
    · simp [decide3, h₁, h₂]
    · by_cases h₃ : (evalCore m s).2.1 > 0.6
      · simp [decide3, h₁, h₂, h₃]
      · simp [decide3, h₁, h₂, h₃]

/-- C2 counterexample: worsening only `avg_monthly_revenue` (100000 → 50000,
with balance 4000, no NSFs, no negative days, jurisdiction "CA" fixed)
IMPROVES the decision from CONDITIONAL to APPROVED and LOWERS the risk score
(0.65 → 0.5): the lower revenue raises `balance_to_revenue_ratio` above its
threshold, removing a WARNING violation and its +0.15 increment. -/
theorem C2_monotonicity_counterexample :
    (evaluate_metrics ⟨some 100000, some 4000, some 0, some 0⟩ "CA").decision =
      UnderwritingDecision.conditional ∧
    (evaluate_metrics ⟨some 50000, some 4000, some 0, some 0⟩ "CA").decision =
      UnderwritingDecision.approved ∧
    decisionRank ((evaluate_metrics ⟨some 50000, some 4000, some 0, some 0⟩ "CA").decision) <
      decisionRank ((evaluate_metrics ⟨some 100000, some 4000, some 0, some 0⟩ "CA").decision) ∧
    (evaluate_metrics ⟨some 50000, some 4000, some 0, some 0⟩ "CA").risk_score <
      (evaluate_metrics ⟨some 100000, some 4000, some 0, some 0⟩ "CA").risk_score := by
  have h1 : (evaluate_metrics ⟨some 100000, some 4000, some 0, some 0⟩ "CA").decision =
      UnderwritingDecision.conditional := by
    rw [evaluate_decision]
    norm_num [decide3, hasCritical_evalCore, warningCount_evalCore, evalCore_risk,
      evalCore_ca, monthlyRevenue, annualRevenue, dailyBalance, nsfCount, negativeDays,
      nsfRatio, balanceToRevenueRatio]
  have h2 : (evaluate_metrics ⟨some 50000, some 4000, some 0, some 0⟩ "CA").decision =
      UnderwritingDecision.approved := by
    rw [evaluate_decision]
    norm_num [decide3, hasCritical_evalCore, warningCount_evalCore, evalCore_risk,
      evalCore_ca, monthlyRevenue, annualRevenue, dailyBalance, nsfCount, negativeDays,
      nsfRatio, balanceToRevenueRatio]
  have h3 : (evaluate_metrics ⟨some 100000, some 4000, some 0, some 0⟩ "CA").risk_score =
      0.65 := by
    rw [evaluate_risk]
    norm_num [evalCore_risk, monthlyRevenue, annualRevenue, dailyBalance, nsfCount,
      negativeDays, nsfRatio, balanceToRevenueRatio]
  have h4 : (evaluate_metrics ⟨some 50000, some 4000, some 0, some 0⟩ "CA").risk_score =
      0.5 := by
    rw [evaluate_risk]
    norm_num [evalCore_risk, monthlyRevenue, annualRevenue, dailyBalance, nsfCount,
      negativeDays, nsfRatio, balanceToRevenueRatio]
  refine ⟨h1, h2, ?_, ?_⟩
  · rw [h1, h2]
    decide
  · rw [h3, h4]
    norm_num

/-- C2 (amended): worsening a single metric other than revenue — a higher NSF
count, more negative days, or a lower balance, with the other three metrics
held fixed and the jurisdiction fixed — never lowers the decision rank in the
strictness order APPROVED < CONDITIONAL < MANUAL_REVIEW < DECLINED and never
lowers the risk score.  (For the fourth worsening of the original claim,
lowering revenue, the claim is refuted by the counterexample.) -/
theorem C2_monotonicity_amended (m m' : Metrics) (s : String)
    (h : (nsfCount m ≤ nsfCount m' ∧ monthlyRevenue m' = monthlyRevenue m ∧
        dailyBalance m' = dailyBalance m ∧ negativeDays m' = negativeDays m) ∨
      (negativeDays m ≤ negativeDays m' ∧ monthlyRevenue m' = monthlyRevenue m ∧
        dailyBalance m' = dailyBalance m ∧ nsfCount m' = nsfCount m) ∨
      (dailyBalance m' ≤ dailyBalance m ∧ monthlyRevenue m' = monthlyRevenue m ∧
        nsfCount m' = nsfCount m ∧ negativeDays m' = negativeDays m)) :
    decisionRank ((evaluate_metrics m s).decision) ≤
        decisionRank ((evaluate_metrics m' s).decision) ∧
      (evaluate_metrics m s).risk_score ≤ (evaluate_metrics m' s).risk_score := by
  rcases h with ⟨hnsf, hmr, hdb, hnd⟩ | ⟨hnd, hmr, hdb, hnsf⟩ | ⟨hdb, hmr, hnsf, hnd⟩
  · exact evaluate_mono s hmr hnsf (le_of_eq hnd.symm) (le_of_eq hdb)
      (btr_mono_balance hmr (le_of_eq hdb))
  · exact evaluate_mono s hmr (le_of_eq hnsf.symm) hnd (le_of_eq hdb)
      (btr_mono_balance hmr (le_of_eq hdb))
  · exact evaluate_mono s hmr (le_of_eq hnsf.symm) (le_of_eq hnd.symm) hdb
      (btr_mono_balance hmr hdb)

/-- C2 witness: the amended monotonicity applied to a concrete NSF worsening
(2 → 9 NSFs on otherwise healthy metrics, jurisdiction "CA"). -/
theorem C2_monotonicity_amended_witness :
    decisionRank ((evaluate_metrics ⟨some 85000, some 15000, some 2, some 3⟩ "CA").decision) ≤
        decisionRank ((evaluate_metrics ⟨some 85000, some 15000, some 9, some 3⟩ "CA").decision) ∧
      (evaluate_metrics ⟨some 85000, some 15000, some 2, some 3⟩ "CA").risk_score ≤
        (evaluate_metrics ⟨some 85000, some 15000, some 9, some 3⟩ "CA").risk_score :=
  C2_monotonicity_amended _ _ "CA"
    (Or.inl ⟨by norm_num [nsfCount], by norm_num [monthlyRevenue],
      by norm_num [dailyBalance], by norm_num [negativeDays]⟩)

/-- C7: for identical metrics, evaluating with jurisdiction "CA" never yields
a decision of lower strictness rank than evaluating with a non-CA
jurisdiction code. -/
theorem C7_ca_overlay_strictness (m : Metrics) (s : String) (h : s ≠ "CA") :
    decisionRank ((evaluate_metrics m s).decision) ≤
      decisionRank ((evaluate_metrics m "CA").decision) := by
  have hrisk : (evalCore m s).2.1 ≤ (evalCore m "CA").2.1 := by
    rw [evalCore_risk, evalCore_risk]
    have h₁ : (if s = "CA" ∧ nsfCount m ≥ 8 then (0.2:ℚ) else 0) = 0 :=
      if_neg (fun hh => h hh.1)
    have h₂ : (0:ℚ) ≤ if ("CA":String) = "CA" ∧ nsfCount m ≥ 8 then (0.2:ℚ) else 0 :=
      ite_zero_nonneg (by norm_num)
    rw [h₁]
    linarith
  rw [evaluate_decision, evaluate_decision]
  apply decide3_rank_mono
  · simp only [decide_eq_true_eq]
    rintro (hc | hca)
    · left
      rw [hasCritical_evalCore] at hc ⊢
      simp only [Bool.or_eq_true, Bool.and_eq_true, decide_eq_true_eq] at hc ⊢
      rcases hc with ((((h1 | h2) | h3) | h4) | ⟨hsa, _⟩)
      · exact Or.inl (Or.inl (Or.inl (Or.inl h1)))
      · exact Or.inl (Or.inl (Or.inl (Or.inr h2)))
      · exact Or.inl (Or.inl (Or.inr h3))
      · exact Or.inl (Or.inr h4)
      · exact absurd hsa h
    · rw [evalCore_ca, if_neg h] at hca
      cases hca
  · simp only [decide_eq_true_eq]
    rintro (hw | hr)
    · left
      rw [warningCount_evalCore] at hw ⊢
      exact hw
    · exact Or.inr (lt_of_lt_of_le hr hrisk)
  · simp only [decide_eq_true_eq]
    intro hr
    exact lt_of_lt_of_le hr hrisk

/-- C7 witness: the CA-strictness comparison at concrete healthy metrics and
the non-CA jurisdiction "TX". -/
theorem C7_witness :
    ("TX" : String) ≠ "CA" ∧
      decisionRank ((evaluate_metrics ⟨some 85000, some 15000, some 2, some 3⟩ "TX").decision) ≤
        decisionRank ((evaluate_metrics ⟨some 85000, some 15000, some 2, some 3⟩ "CA").decision) :=
  ⟨by decide, C7_ca_overlay_strictness _ _ (by decide)⟩

/-- C9: whenever the decision is not DECLINED, the result is CA-compliant: a
CA-non-compliant result can never carry an APPROVED, CONDITIONAL or
MANUAL_REVIEW decision. -/
theorem C9_nondeclined_ca_compliant (m : Metrics) (s : String)
    (h : (evaluate_metrics m s).decision ≠ UnderwritingDecision.declined) :
    (evaluate_metrics m s).ca_compliant = true := by
  rw [evaluate_ca]
  by_contra hca
  apply h
  have hfalse : (evalCore m s).2.2.2 = false := by
    rcases Bool.eq_false_or_eq_true ((evalCore m s).2.2.2) with hb | hb
    · exact absurd hb hca
    · exact hb
  rw [evaluate_decision]
  simp [decide3, hfalse]

/-- C9 witness: a concrete APPROVED evaluation, hence non-DECLINED, is
CA-compliant. -/
theorem C9_witness :
    (evaluate_metrics ⟨some 85000, some 15000, some 2, some 3⟩ "CA").decision ≠
        UnderwritingDecision.declined ∧
      (evaluate_metrics ⟨some 85000, some 15000, some 2, some 3⟩ "CA").ca_compliant = true := by
  have hd : (evaluate_metrics ⟨some 85000, some 15000, some 2, some 3⟩ "CA").decision =
      UnderwritingDecision.approved := by
    rw [evaluate_decision]
    norm_num [decide3, hasCritical_evalCore, warningCount_evalCore, evalCore_risk,
      evalCore_ca, monthlyRevenue, annualRevenue, dailyBalance, nsfCount, negativeDays,
      nsfRatio, balanceToRevenueRatio]
  have hne : (evaluate_metrics ⟨some 85000, some 15000, some 2, some 3⟩ "CA").decision ≠
      UnderwritingDecision.declined := by
    rw [hd]
    decide
  exact ⟨hne, C9_nondeclined_ca_compliant _ _ hne⟩

/-- C10: `evaluate_metrics` treats every absent metric field as 0 (evaluating
a metrics mapping equals evaluating the mapping with each absent field filled
with 0), and on the empty mapping it returns a DECLINED result containing a
`min_monthly_revenue` violation rather than raising. -/
theorem C10_missing_fields_default (m : Metrics) (s : String) :
    evaluate_metrics m s =
      evaluate_metrics ⟨some (monthlyRevenue m), some (dailyBalance m),
        some (nsfCount m), some (negativeDays m)⟩ s ∧
    (evaluate_metrics ⟨none, none, none, none⟩ s).decision =
      UnderwritingDecision.declined ∧
    ∃ v ∈ (evaluate_metrics ⟨none, none, none, none⟩ s).violations,
      v.rule_id = "min_monthly_revenue" := by
  refine ⟨rfl, ?_, ?_⟩
  · rw [evaluate_decision]
    norm_num [decide3, hasCritical_evalCore, warningCount_evalCore, evalCore_risk,
      evalCore_ca, monthlyRevenue, annualRevenue, dailyBalance, nsfCount, negativeDays,
      nsfRatio, balanceToRevenueRatio]
  · refine ⟨minMonthlyRevenueViolation 0, ?_, rfl⟩
    rw [evaluate_violations, evalCore_violations]
    norm_num [monthlyRevenue, annualRevenue, dailyBalance, nsfCount, negativeDays,
      nsfRatio, balanceToRevenueRatio]

/-! ### Rule-id lemmas and violation provenance -/

@[simp] lemma rid_of_minMonthlyRevenueViolation (a : ℚ) :
    (minMonthlyRevenueViolation a).rule_id = "min_monthly_revenue" := rfl

@[simp] lemma rid_of_minAnnualRevenueViolation (a : ℚ) :
    (minAnnualRevenueViolation a).rule_id = "min_annual_revenue" := rfl

@[simp] lemma rid_of_maxNsf3mViolation (a : ℚ) :
    (maxNsf3mViolation a).rule_id = "max_nsf_3m" := rfl

@[simp] lemma rid_of_maxNsfRatioViolation (a : ℚ) :
    (maxNsfRatioViolation a).rule_id = "max_nsf_ratio" := rfl

@[simp] lemma rid_of_minAvgBalanceViolation (a : ℚ) :
    (minAvgBalanceViolation a).rule_id = "min_avg_balance" := rfl

@[simp] lemma rid_of_balanceToRevenueRatioViolation (a : ℚ) :
    (balanceToRevenueRatioViolation a).rule_id = "balance_to_revenue_ratio" := rfl

@[simp] lemma rid_of_maxNegativeDaysViolation (a : ℚ) :
    (maxNegativeDaysViolation a).rule_id = "max_negative_days_3m" := rfl

@[simp] lemma rid_of_caMinRevenueViolation (a : ℚ) :
    (caMinRevenueViolation a).rule_id = "ca_min_revenue" := rfl

@[simp] lemma rid_of_caMaxNsfRatioViolation (a : ℚ) :
    (caMaxNsfRatioViolation a).rule_id = "ca_max_nsf_ratio" := rfl

lemma mem_ite_singleton {c : Prop} [Decidable c] {v w : RuleViolation}
    (h : v ∈ (if c then [w] else [])) : v = w := by
  split at h
  · simpa using h
  · simp at h

/-- Every violation `evaluate_metrics` ever emits carries one of the nine rule
ids its check blocks reference; in particular the catalog entries
`max_consecutive_negative_days`, `max_daily_payment_ratio` and
`max_total_exposure` never yield a violation. -/
lemma violations_rule_ids (m : Metrics) (s : String) :
    ∀ v ∈ (evaluate_metrics m s).violations,
      v.rule_id ∈ ["min_monthly_revenue", "min_annual_revenue", "max_nsf_3m",
        "max_nsf_ratio", "min_avg_balance", "balance_to_revenue_ratio",
        "max_negative_days_3m", "ca_min_revenue", "ca_max_nsf_ratio"] := by
  intro v hv
  rw [evaluate_violations, evalCore_violations] at hv
  simp only [List.mem_append] at hv
  rcases hv with ((((((h | h) | h) | h) | h) | h) | h) | h
  · rw [mem_ite_singleton h]
    simp
  · rw [mem_ite_singleton h]
    simp
  · rw [mem_ite_singleton h]
    simp
  · rw [mem_ite_singleton h]
    simp
  · rw [mem_ite_singleton h]
    simp
  · rw [mem_ite_singleton h]
    simp
  · rw [mem_ite_singleton h]
    simp
  · by_cases hs : s = "CA"
    · rw [if_pos hs] at h
      simp only [List.mem_append] at h
      rcases h with h | h
      · rw [mem_ite_singleton h]
        simp
      · rw [mem_ite_singleton h]
        simp
    · rw [if_neg hs] at h
      simp at h

/-- Each decision branch appends exactly one closing reason, and that reason
differs from the CA high-risk reason string. -/
lemma evaluate_reasons_cases (m : Metrics) (s : String) :
    ∃ r, (evaluate_metrics m s).reasons = (evalCore m s).2.2.1 ++ [r] ∧
      r ≠ highRiskReason := by
  simp only [evaluate_metrics]
  split_ifs
  · exact ⟨_, rfl, by decide⟩
  · exact ⟨_, rfl, by decide⟩
  · exact ⟨_, rfl, by decide⟩
  · exact ⟨_, rfl, by decide⟩

/-- C3 counterexample: with jurisdiction "TX" (not "CA") and `total_nsf_3m = 9`
(which meets the high-risk threshold 8), the result contains no high-risk
reason string and its risk score is exactly 0.3 + 0.25 + 0.15 = 0.7, without
the claimed +0.20 increment: the high-risk NSF signal lives inside the
`state == "CA"` branch, so the claim fails for non-CA jurisdictions. -/
theorem C3_ca_only_counterexample :
    nsfCount ⟨some 85000, some 15000, some 9, some 3⟩ ≥ 8 ∧
    highRiskReason ∉ (evaluate_metrics ⟨some 85000, some 15000, some 9, some 3⟩ "TX").reasons ∧
    (evaluate_metrics ⟨some 85000, some 15000, some 9, some 3⟩ "TX").risk_score = 0.7 := by
  refine ⟨by norm_num [nsfCount], ?_, ?_⟩
  · obtain ⟨r, hr, hne⟩ :=
      evaluate_reasons_cases ⟨some 85000, some 15000, some 9, some 3⟩ "TX"
    rw [hr, evalCore_reasons,
      if_neg (by simp : ¬(("TX":String) = "CA" ∧
        nsfCount ⟨some 85000, some 15000, some 9, some 3⟩ ≥ 8))]
    simp only [List.nil_append, List.mem_singleton]
    exact fun hh => hne hh.symm
  · have hno : ¬(("TX":String) = "CA" ∧
        nsfCount ⟨some 85000, some 15000, some 9, some 3⟩ ≥ 8) :=
      fun hh => absurd hh.1 (by decide)
    rw [evaluate_risk, evalCore_risk, if_neg hno]
    norm_num [monthlyRevenue, annualRevenue, dailyBalance, nsfCount,
      negativeDays, nsfRatio, balanceToRevenueRatio]

/-- C3 (amended): when the jurisdiction is "CA" and `total_nsf_3m` meets the
high-risk threshold 8, the result's reasons contain the standalone high-risk
reason string and the accumulated (unclamped) risk score carries an extra
+0.20 on top of the rule-block increments, independently of which formal NSF
rules breached; the signal appends no `RuleViolation` — every violation still
carries one of the nine rule ids of the check blocks.  (The original claim
quantified over every jurisdiction; the counterexample shows the signal is
CA-only.) -/
theorem C3_high_risk_nsf_amended (m : Metrics) (h : nsfCount m ≥ 8) :
    highRiskReason ∈ (evaluate_metrics m "CA").reasons ∧
    (evalCore m "CA").2.1 =
      0.3 + (if monthlyRevenue m < 15000 then (0.3:ℚ) else 0) +
        (if nsfCount m > 5 then (0.25:ℚ) else 0) +
        (if nsfRatio m > 0.03 then (0.15:ℚ) else 0) +
        (if dailyBalance m < 5000 then (0.2:ℚ) else 0) +
        (if balanceToRevenueRatio m < 0.05 then (0.15:ℚ) else 0) +
        (if negativeDays m > 15 then (0.3:ℚ) else 0) + 0.2 ∧
    (evaluate_metrics m "CA").risk_score = min (evalCore m "CA").2.1 1 ∧
    ∀ v ∈ (evaluate_metrics m "CA").violations,
      v.rule_id ∈ ["min_monthly_revenue", "min_annual_revenue", "max_nsf_3m",
        "max_nsf_ratio", "min_avg_balance", "balance_to_revenue_ratio",
        "max_negative_days_3m", "ca_min_revenue", "ca_max_nsf_ratio"] := by
  have hc : (("CA":String) = "CA" ∧ nsfCount m ≥ 8) := ⟨rfl, h⟩
  refine ⟨?_, ?_, evaluate_risk m "CA", violations_rule_ids m "CA"⟩
  · apply (evaluate_reasons_init m "CA").subset
    rw [evalCore_reasons, if_pos hc]
    simp
  · rw [evalCore_risk, if_pos hc]

/-- C3 witness: the amended statement applied at `total_nsf_3m = 9` with
jurisdiction "CA". -/
theorem C3_high_risk_nsf_witness :
    nsfCount ⟨some 85000, some 15000, some 9, some 3⟩ ≥ 8 ∧
      highRiskReason ∈
        (evaluate_metrics ⟨some 85000, some 15000, some 9, some 3⟩ "CA").reasons :=
  ⟨by norm_num [nsfCount],
    (C3_high_risk_nsf_amended _ (by norm_num [nsfCount])).1⟩

/-- C4 counterexample: lowering revenue from 15000 to 14999 (all other metrics
fixed and healthy, non-CA jurisdiction) breaches BOTH base revenue rules —
`min_monthly_revenue` and `min_annual_revenue` — yet the risk score rises by
exactly the 0.3 increment of the monthly rule alone: the `min_annual_revenue`
block appends its violation but adds no risk-score increment, refuting the
claim that every breached base rule, the annual-revenue rule included,
contributes a strictly positive increment. -/
theorem C4_annual_rule_zero_increment_counterexample :
    minAnnualRevenueViolation 179988 ∈
        (evaluate_metrics ⟨some 14999, some 10000, some 0, some 0⟩ "TX").violations ∧
    minMonthlyRevenueViolation 14999 ∈
        (evaluate_metrics ⟨some 14999, some 10000, some 0, some 0⟩ "TX").violations ∧
    (evaluate_metrics ⟨some 15000, some 10000, some 0, some 0⟩ "TX").violations = [] ∧
    (evaluate_metrics ⟨some 14999, some 10000, some 0, some 0⟩ "TX").risk_score =
      (evaluate_metrics ⟨some 15000, some 10000, some 0, some 0⟩ "TX").risk_score + 0.3 := by
  have h1 : (evaluate_metrics ⟨some 14999, some 10000, some 0, some 0⟩ "TX").risk_score =
      0.6 := by
    rw [evaluate_risk, evalCore_risk,
      if_neg (fun hh => absurd hh.1 (show ¬(("TX":String) = "CA") by decide) :
        ¬(("TX":String) = "CA" ∧ nsfCount ⟨some 14999, some 10000, some 0, some 0⟩ ≥ 8))]
    norm_num [monthlyRevenue, annualRevenue, dailyBalance, nsfCount, negativeDays,
      nsfRatio, balanceToRevenueRatio]
  have h2 : (evaluate_metrics ⟨some 15000, some 10000, some 0, some 0⟩ "TX").risk_score =
      0.3 := by
    rw [evaluate_risk, evalCore_risk,
      if_neg (fun hh => absurd hh.1 (show ¬(("TX":String) = "CA") by decide) :
        ¬(("TX":String) = "CA" ∧ nsfCount ⟨some 15000, some 10000, some 0, some 0⟩ ≥ 8))]
    norm_num [monthlyRevenue, annualRevenue, dailyBalance, nsfCount, negativeDays,
      nsfRatio, balanceToRevenueRatio]
  refine ⟨?_, ?_, ?_, ?_⟩
  · rw [evaluate_violations, evalCore_violations]
    norm_num [monthlyRevenue, annualRevenue, dailyBalance, nsfCount, negativeDays,
      nsfRatio, balanceToRevenueRatio]
  · rw [evaluate_violations, evalCore_violations]
    norm_num [monthlyRevenue, annualRevenue, dailyBalance, nsfCount, negativeDays,
      nsfRatio, balanceToRevenueRatio]
  · rw [evaluate_violations, evalCore_violations]
    norm_num [monthlyRevenue, annualRevenue, dailyBalance, nsfCount, negativeDays,
      nsfRatio, balanceToRevenueRatio]
  · rw [h1, h2]
    norm_num

/-- C4 (amended): every breach of a base-catalog rule appends a
`RuleViolation` carrying the compared actual value, the rule's threshold and
its severity; every breached base rule except `min_annual_revenue` also adds
its fixed strictly positive risk-score increment (+0.30 monthly revenue,
+0.25 NSF count, +0.15 NSF ratio, +0.20 balance, +0.15 balance ratio, +0.30
negative days), while the `min_annual_revenue` breach appends its violation
but contributes no increment, as the risk-score decomposition shows (no
summand depends on the annual-revenue breach). -/
theorem C4_rule_breach_effects (m : Metrics) (s : String) :
    (monthlyRevenue m < 15000 →
      ({ rule_id := "min_monthly_revenue",
         description := "Monthly revenue below minimum threshold",
         severity := ViolationSeverity.critical,
         actual_value := monthlyRevenue m, threshold_value := 15000,
         field_name := "avg_monthly_revenue" } : RuleViolation) ∈
        (evaluate_metrics m s).violations) ∧
    (annualRevenue m < 180000 →
      ({ rule_id := "min_annual_revenue",
         description := "Annual revenue below minimum threshold",
         severity := ViolationSeverity.critical,
         actual_value := annualRevenue m, threshold_value := 180000,
         field_name := "annual_revenue" } : RuleViolation) ∈
        (evaluate_metrics m s).violations) ∧
    (nsfCount m > 5 →
      ({ rule_id := "max_nsf_3m",
         description := "NSF count exceeds maximum threshold",
         severity := ViolationSeverity.critical,
         actual_value := nsfCount m, threshold_value := 5,
         field_name := "total_nsf_3m" } : RuleViolation) ∈
        (evaluate_metrics m s).violations) ∧
    (nsfRatio m > 0.03 →
      ({ rule_id := "max_nsf_ratio",
         description := "NSF ratio too high",
         severity := ViolationSeverity.warning,
         actual_value := nsfRatio m, threshold_value := 0.03,
         field_name := "nsf_ratio" } : RuleViolation) ∈
        (evaluate_metrics m s).violations) ∧
    (dailyBalance m < 5000 →
      ({ rule_id := "min_avg_balance",
         description := "Average daily balance too low",
         severity := ViolationSeverity.warning,
         actual_value := dailyBalance m, threshold_value := 5000,
         field_name := "avg_daily_balance_3m" } : RuleViolation) ∈
        (evaluate_metrics m s).violations) ∧
    (balanceToRevenueRatio m < 0.05 →
      ({ rule_id := "balance_to_revenue_ratio",
         description := "Balance to revenue ratio too low",
         severity := ViolationSeverity.warning,
         actual_value := balanceToRevenueRatio m, threshold_value := 0.05,
         field_name := "balance_to_revenue_ratio" } : RuleViolation) ∈
        (evaluate_metrics m s).violations) ∧
    (negativeDays m > 15 →
      ({ rule_id := "max_negative_days_3m",
         description := "Too many negative balance days",
         severity := ViolationSeverity.critical,
         actual_value := negativeDays m, threshold_value := 15,
         field_name := "total_days_negative_3m" } : RuleViolation) ∈
        (evaluate_metrics m s).violations) ∧
    (evaluate_metrics m s).risk_score = min (evalCore m s).2.1 1 ∧
    (evalCore m s).2.1 =
      0.3 + (if monthlyRevenue m < 15000 then (0.3:ℚ) else 0) +
        (if nsfCount m > 5 then (0.25:ℚ) else 0) +
        (if nsfRatio m > 0.03 then (0.15:ℚ) else 0) +
        (if dailyBalance m < 5000 then (0.2:ℚ) else 0) +
        (if balanceToRevenueRatio m < 0.05 then (0.15:ℚ) else 0) +
        (if negativeDays m > 15 then (0.3:ℚ) else 0) +
        (if s = "CA" ∧ nsfCount m ≥ 8 then (0.2:ℚ) else 0) := by
  refine ⟨?_, ?_, ?_, ?_, ?_, ?_, ?_, evaluate_risk m s, evalCore_risk m s⟩
  · intro h
    rw [evaluate_violations, evalCore_violations]
    simp only [List.mem_append]
    refine Or.inl (Or.inl (Or.inl (Or.inl (Or.inl (Or.inl (Or.inl ?_))))))
    rw [if_pos h]
    simp [minMonthlyRevenueViolation]
  · intro h
    rw [evaluate_violations, evalCore_violations]
    simp only [List.mem_append]
    refine Or.inl (Or.inl (Or.inl (Or.inl (Or.inl (Or.inl (Or.inr ?_))))))
    rw [if_pos h]
    simp [minAnnualRevenueViolation]
  · intro h
    rw [evaluate_violations, evalCore_violations]
    simp only [List.mem_append]
    refine Or.inl (Or.inl (Or.inl (Or.inl (Or.inl (Or.inr ?_)))))
    rw [if_pos h]
    simp [maxNsf3mViolation]
  · intro h
    rw [evaluate_violations, evalCore_violations]
    simp only [List.mem_append]
    refine Or.inl (Or.inl (Or.inl (Or.inl (Or.inr ?_))))
    rw [if_pos h]
    simp [maxNsfRatioViolation]
  · intro h
    rw [evaluate_violations, evalCore_violations]
    simp only [List.mem_append]
    refine Or.inl (Or.inl (Or.inl (Or.inr ?_)))
    rw [if_pos h]
    simp [minAvgBalanceViolation]
  · intro h
    rw [evaluate_violations, evalCore_violations]
    simp only [List.mem_append]
    refine Or.inl (Or.inl (Or.inr ?_))
    rw [if_pos h]
    simp [balanceToRevenueRatioViolation]
  · intro h
    rw [evaluate_violations, evalCore_violations]
    simp only [List.mem_append]
    refine Or.inl (Or.inr ?_)
    rw [if_pos h]
    simp [maxNegativeDaysViolation]

/-- C5 counterexample: `validate_deal_terms` with `term_days = 0` hits the
unguarded division `total_payback / term_days` and raises
`ZeroDivisionError` (modelled as `none`), refuting the claim that every
division whose denominator can be zero is guarded. -/
theorem C5_zero_term_days_counterexample :
    validate_deal_terms 50000 1.5 0 40000 "CA" = none := rfl

/-- C5 (amended): for every `term_days ≠ 0` — including zero
`monthly_revenue`, whose two divisions are guarded to a ratio of 0 —
`validate_deal_terms` returns a `(valid, issues)` pair without raising, with
`valid` true exactly when `issues` is empty.  (For `term_days = 0` the
division is unguarded and raises: see the counterexample.) -/
theorem C5_no_exception_amended (deal_amount fee_rate : ℚ) (term_days : ℤ)
    (monthly_revenue : ℚ) (state : String) (h : term_days ≠ 0) :
    ∃ valid issues,
      validate_deal_terms deal_amount fee_rate term_days monthly_revenue state =
        some (valid, issues) ∧ valid = issues.isEmpty := by
  simp only [validate_deal_terms, if_neg h]
  exact ⟨_, _, rfl, rfl⟩

/-- C5 witness: the amended statement at a 90-day term with zero monthly
revenue. -/
theorem C5_witness :
    ((90:ℤ) ≠ 0) ∧
      ∃ valid issues, validate_deal_terms 50000 1.5 90 0 "CA" =
        some (valid, issues) ∧ valid = issues.isEmpty :=
  ⟨by decide, C5_no_exception_amended 50000 1.5 90 0 "CA" (by decide)⟩

/-- C6 counterexample: the catalog contains the
`max_consecutive_negative_days` entry, yet no metrics input and jurisdiction
ever make `evaluate_metrics` emit a violation with that rule id — the
evaluator never references that catalog entry (nor, by the same provenance
lemma, `max_daily_payment_ratio` or `max_total_exposure`). -/
theorem C6_unevaluated_rule_counterexample :
    (⟨"max_consecutive_negative_days", 7, ViolationSeverity.warning⟩ : RuleDef) ∈ rules ∧
    ∀ (m : Metrics) (s : String), ∀ v ∈ (evaluate_metrics m s).violations,
      v.rule_id ≠ "max_consecutive_negative_days" := by
  constructor
  · unfold rules
    exact List.mem_cons_of_mem _ (List.mem_cons_of_mem _ (List.mem_cons_of_mem _
      (List.mem_cons_of_mem _ (List.mem_cons_of_mem _ (List.mem_cons_of_mem _
        (List.mem_cons_of_mem _ (List.mem_cons_self _ _)))))))
  · intro m s v hv hcontra
    have h9 := violations_rule_ids m s v hv
    rw [hcontra] at h9
    simp at h9

/-- C6 (amended): the evaluator checks nine of the twelve catalog rules —
each of those nine rule ids is emitted as a `RuleViolation` for some metrics
input and jurisdiction (a single input breaching all nine exists), and every
emitted violation carries one of those nine ids; the three remaining catalog
entries (`max_consecutive_negative_days`, `max_daily_payment_ratio`,
`max_total_exposure`) never yield a violation from `evaluate_metrics` (the
latter two instead drive `validate_deal_terms` issues). -/
theorem C6_catalog_coverage_amended :
    (∀ (m : Metrics) (s : String), ∀ v ∈ (evaluate_metrics m s).violations,
      v.rule_id ∈ ["min_monthly_revenue", "min_annual_revenue", "max_nsf_3m",
        "max_nsf_ratio", "min_avg_balance", "balance_to_revenue_ratio",
        "max_negative_days_3m", "ca_min_revenue", "ca_max_nsf_ratio"]) ∧
    (∀ rid ∈ (["min_monthly_revenue", "min_annual_revenue", "max_nsf_3m",
        "max_nsf_ratio", "min_avg_balance", "balance_to_revenue_ratio",
        "max_negative_days_3m", "ca_min_revenue", "ca_max_nsf_ratio"] : List String),
      ∃ (m : Metrics) (s : String),
        ∃ v ∈ (evaluate_metrics m s).violations, v.rule_id = rid) := by
  have hv : (evaluate_metrics ⟨some 1000, some 0, some 9, some 20⟩ "CA").violations =
      [minMonthlyRevenueViolation 1000, minAnnualRevenueViolation 12000,
        maxNsf3mViolation 9, maxNsfRatioViolation (1/10), minAvgBalanceViolation 0,
        balanceToRevenueRatioViolation 0, maxNegativeDaysViolation 20,
        caMinRevenueViolation 12000, caMaxNsfRatioViolation (1/10)] := by
    rw [evaluate_violations, evalCore_violations]
    norm_num [monthlyRevenue, annualRevenue, dailyBalance, nsfCount, negativeDays,
      nsfRatio, balanceToRevenueRatio]
  refine ⟨violations_rule_ids, ?_⟩
  intro rid hrid
  simp only [List.mem_cons, List.not_mem_nil, or_false] at hrid
  rcases hrid with rfl | rfl | rfl | rfl | rfl | rfl | rfl | rfl | rfl
  · exact ⟨_, "CA", minMonthlyRevenueViolation 1000, by rw [hv]; simp, rfl⟩
  · exact ⟨_, "CA", minAnnualRevenueViolation 12000, by rw [hv]; simp, rfl⟩
  · exact ⟨_, "CA", maxNsf3mViolation 9, by rw [hv]; simp, rfl⟩
  · exact ⟨_, "CA", maxNsfRatioViolation (1/10), by rw [hv]; simp, rfl⟩
  · exact ⟨_, "CA", minAvgBalanceViolation 0, by rw [hv]; simp, rfl⟩
  · exact ⟨_, "CA", balanceToRevenueRatioViolation 0, by rw [hv]; simp, rfl⟩
  · exact ⟨_, "CA", maxNegativeDaysViolation 20, by rw [hv]; simp, rfl⟩
  · exact ⟨_, "CA", caMinRevenueViolation 12000, by rw [hv]; simp, rfl⟩
  · exact ⟨_, "CA", caMaxNsfRatioViolation (1/10), by rw [hv]; simp, rfl⟩

lemma buildOffer_total (i : ℕ) (t : OfferTier) (revenue : ℚ)
    (uw : UnderwritingResult) (h : t.term_days ≠ 0) :
    ∃ o, buildOffer i t revenue uw = some o := by
  simp only [buildOffer]
  cases hval : validate_deal_terms ((offerAmount uw revenue t : ℤ) : ℚ) t.fee
      t.term_days revenue "CA" with
  | none =>
      have hs := validate_deal_terms_isSome ((offerAmount uw revenue t : ℤ) : ℚ)
        t.fee t.term_days revenue "CA" h
      rw [hval] at hs
      simp at hs
  | some p =>
      obtain ⟨valid, issues⟩ := p
      exact ⟨_, rfl⟩

/-- C8: on any metrics input and tier table for which the offer generator
produces offers, every produced offer's amount is an exact multiple of 100,
is at most the pre-rounding risk-adjusted value of its tier (rounding is
downward only), and is at most the evaluation's `max_offer_amount` whenever
that amount is non-null. -/
theorem C8_offer_amount_bounds (m : Metrics) (tiers : List OfferTier)
    (os : List GeneratedOffer) (h : generate_offers m tiers = Except.ok os)
    (o : GeneratedOffer) (ho : o ∈ os) :
    o.amount % 100 = 0 ∧
    (∃ t ∈ (if tiers.isEmpty then default_tiers else tiers).take 3,
      (o.amount : ℚ) ≤ riskAdjusted (evaluate_metrics m "CA") (monthlyRevenue m) t) ∧
    (∀ mo : ℚ, (evaluate_metrics m "CA").max_offer_amount = some mo →
      (o.amount : ℚ) ≤ mo) := by
  rcases generate_offers_ok_inv h with rfl | ⟨hd, hmrv, hrev, hbo⟩
  · cases ho
  · obtain ⟨t, ht, j, hjo⟩ := buildOffers_mem _ _ _ hbo o ho
    have hamt := buildOffer_some_amount hjo
    refine ⟨?_, ⟨t, ht, ?_⟩, ?_⟩
    · rw [hamt]
      exact offerAmount_mod _ _ _
    · rw [hamt]
      exact offerAmount_le _ _ _
    · intro mo hmo
      have hpos := evaluate_max_offer_pos hrev hmo
      have hle := riskAdjusted_le (evaluate_metrics m "CA") (monthlyRevenue m) t hmo
        hpos (evaluate_risk_nonneg m "CA") (evaluate_risk_le_one m "CA")
      rw [hamt]
      exact le_trans (offerAmount_le _ _ _) hle

/-- C8 witness: the bounds applied to a concrete offer generated for healthy
metrics and a single override tier (factor 1, fee 2, 100-day term). -/
theorem C8_witness :
    ∃ os o, generate_offers ⟨some 85000, some 15000, some 2, some 3⟩
        [⟨1, 2, 100, none⟩] = Except.ok os ∧ o ∈ os ∧
      o.amount % 100 = 0 ∧
      (∃ t ∈ (if ([(⟨1, 2, 100, none⟩ : OfferTier)] : List OfferTier).isEmpty
          then default_tiers else [⟨1, 2, 100, none⟩]).take 3,
        (o.amount : ℚ) ≤
          riskAdjusted (evaluate_metrics ⟨some 85000, some 15000, some 2, some 3⟩ "CA")
            (monthlyRevenue ⟨some 85000, some 15000, some 2, some 3⟩) t) ∧
      (∀ mo : ℚ,
        (evaluate_metrics ⟨some 85000, some 15000, some 2, some 3⟩ "CA").max_offer_amount =
          some mo → (o.amount : ℚ) ≤ mo) := by
  obtain ⟨o₀, ho₀⟩ := buildOffer_total 0 ⟨1, 2, 100, none⟩
    (monthlyRevenue ⟨some 85000, some 15000, some 2, some 3⟩)
    (evaluate_metrics ⟨some 85000, some 15000, some 2, some 3⟩ "CA") (by decide)
  have hd : (evaluate_metrics ⟨some 85000, some 15000, some 2, some 3⟩ "CA").decision =
      UnderwritingDecision.approved := by
    rw [evaluate_decision]
    norm_num [decide3, hasCritical_evalCore, warningCount_evalCore, evalCore_risk,
      evalCore_ca, monthlyRevenue, annualRevenue, dailyBalance, nsfCount, negativeDays,
      nsfRatio, balanceToRevenueRatio]
  have h1 : (evaluate_metrics ⟨some 85000, some 15000, some 2, some 3⟩ "CA").decision ≠
      UnderwritingDecision.declined := by
    rw [hd]
    decide
  have h2 : (evaluate_metrics ⟨some 85000, some 15000, some 2, some 3⟩ "CA").decision ≠
      UnderwritingDecision.manual_review := by
    rw [hd]
    decide
  have h3 : ¬(monthlyRevenue ⟨some 85000, some 15000, some 2, some 3⟩ ≤ 0) := by
    norm_num [monthlyRevenue]
  have hgen : generate_offers ⟨some 85000, some 15000, some 2, some 3⟩
      [⟨1, 2, 100, none⟩] = Except.ok [o₀] := by
    simp only [generate_offers, if_neg h1, if_neg h2, if_neg h3, List.isEmpty_cons,
      Bool.false_eq_true, if_false, List.take_succ_cons, List.take_nil, buildOffers, ho₀]
  have hall := C8_offer_amount_bounds _ _ _ hgen o₀ (List.mem_cons_self _ _)
  exact ⟨[o₀], o₀, hgen, List.mem_cons_self _ _, hall.1, hall.2.1, hall.2.2⟩
